import Mathlib

/-!
Verification of the TCE/PI debt-certificate extraction pipeline.

This file gives a shallow embedding, over lists of characters, of the
text-extraction core of the repository:

  - gerar_valor_extenso            (src/main.py, lines 482-539)
  - parsear_endereco               (src/gestor_enderecos.py, lines 118-189)
  - parsear_partes                 (src/gestor_enderecos.py, lines 338-459)
  - extrair_dados_certidao         (src/main.py, lines 101-301)
  - _buscar_acordao_por_doc        (src/main.py, lines 330-355)
  - _normalizar_acordao            (src/main.py, lines 86-98)

Python regular expressions are embedded as hand-written matchers that
reproduce the leftmost-match, greedy/lazy and backtracking behaviour of
the concrete patterns appearing in the source.  Character classes are
modelled over the ASCII range plus the accented Portuguese letters that
occur in the source patterns; the exotic corners of Unicode case folding
are outside the model.  Python floats are modelled by exact decimal
values num / 10 ^ k; the only claims that touch the numeric path are
either concrete evaluations (where the rounded IEEE double and the exact
decimal agree) or about the parse-failure path, which is
value-independent.
-/

namespace TCE

/-- Strings are modelled as lists of characters. -/
abbrev Str := List Char

/-- Python whitespace class (backslash-s) restricted to ASCII. -/
def isSpacePy (c : Char) : Bool :=
  c = ' ' || c = '\t' || c = '\n' || c = '\x0d' || c = '\x0b' || c = '\x0c'

/-- Decimal digit (Python backslash-d on the ASCII fragment). -/
def isDigitCh (c : Char) : Bool := '0' ≤ c && c ≤ '9'

def isAsciiUpper (c : Char) : Bool := 'A' ≤ c && c ≤ 'Z'

def isAsciiLower (c : Char) : Bool := 'a' ≤ c && c ≤ 'z'

def isAsciiAlpha (c : Char) : Bool := isAsciiUpper c || isAsciiLower c

/-- Uppercase accented letters appearing in the source's character classes. -/
def upperAccented : Str := "ÁÉÍÓÚÀÂÊÔÇÃẼÕÜ".toList

/-- Lowercase forms of the accented letters. -/
def lowerAccented : Str := "áéíóúàâêôçãẽõü".toList

def isUpperAccented (c : Char) : Bool := upperAccented.contains c

def isLowerAccented (c : Char) : Bool := lowerAccented.contains c

/-- Lowercasing for the modelled alphabet (ASCII plus the accented set). -/
def pyLower (c : Char) : Char :=
  if isAsciiUpper c then Char.ofNat (c.toNat + 32)
  else match c with
  | 'Á' => 'á' | 'É' => 'é' | 'Í' => 'í' | 'Ó' => 'ó' | 'Ú' => 'ú'
  | 'À' => 'à' | 'Â' => 'â' | 'Ê' => 'ê' | 'Ô' => 'ô' | 'Ç' => 'ç'
  | 'Ã' => 'ã' | 'Ẽ' => 'ẽ' | 'Õ' => 'õ' | 'Ü' => 'ü'
  | _ => c

/-- Uppercasing for the modelled alphabet. -/
def pyUpper (c : Char) : Char :=
  if isAsciiLower c then Char.ofNat (c.toNat - 32)
  else match c with
  | 'á' => 'Á' | 'é' => 'É' | 'í' => 'Í' | 'ó' => 'Ó' | 'ú' => 'Ú'
  | 'à' => 'À' | 'â' => 'Â' | 'ê' => 'Ê' | 'ô' => 'Ô' | 'ç' => 'Ç'
  | 'ã' => 'Ã' | 'ẽ' => 'Ẽ' | 'õ' => 'Õ' | 'ü' => 'Ü'
  | _ => c

/-- Case-insensitive character comparison (re.IGNORECASE on the modelled alphabet). -/
def ciEq (a b : Char) : Bool := pyLower a = pyLower b

/-- Cased letter of the modelled alphabet (drives str.title word boundaries). -/
def isCasedPy (c : Char) : Bool :=
  isAsciiAlpha c || isUpperAccented c || isLowerAccented c

/-- Python word character (backslash-w) on the modelled alphabet. -/
def isWordPy (c : Char) : Bool := isCasedPy c || isDigitCh c || c = '_'

/-- Length of the leading whitespace run. -/
def wsRun : Str → Nat
  | [] => 0
  | c :: tl => if isSpacePy c then wsRun tl + 1 else 0

def lstripWs (s : Str) : Str := s.drop (wsRun s)

def rstripWs (s : Str) : Str := (lstripWs s.reverse).reverse

/-- Python str.strip with no arguments. -/
def stripWs (s : Str) : Str := rstripWs (lstripWs s)

/-- Length of the leading run of characters belonging to the given set. -/
def setRun (cs : Str) : Str → Nat
  | [] => 0
  | c :: tl => if cs.contains c then setRun cs tl + 1 else 0

def lstripSet (cs : Str) (s : Str) : Str := s.drop (setRun cs s)

def rstripSet (cs : Str) (s : Str) : Str := (lstripSet cs s.reverse).reverse

/-- Python str.strip with an explicit character set. -/
def stripSet (cs : Str) (s : Str) : Str := rstripSet cs (lstripSet cs s)

/-- Model of re.sub backslash-s-plus to a single space: collapse every
whitespace run to one space character. -/
def collapseWs : Str → Str
  | [] => []
  | c :: tl =>
    let r := collapseWs tl
    if isSpacePy c then
      match r with
      | ' ' :: _ => r
      | _ => ' ' :: r
    else c :: r

/-- Python str.title on the modelled alphabet: a cased letter is uppercased
after a non-cased character and lowercased after a cased one. -/
def pyTitleGo (prevCased : Bool) : Str → Str
  | [] => []
  | c :: tl =>
    if isCasedPy c then
      (if prevCased then pyLower c else pyUpper c) :: pyTitleGo true tl
    else c :: pyTitleGo false tl

def pyTitle (s : Str) : Str := pyTitleGo false s

def pyUpperStr (s : Str) : Str := s.map pyUpper

def pyLowerStr (s : Str) : Str := s.map pyLower

/-- Join a list of strings with a separator (Python str.join). -/
def joinSep (sep : Str) : List Str → Str
  | [] => []
  | [x] => x
  | x :: xs => x ++ sep ++ joinSep sep xs

/-- Python str.split on a single character (keeps empty fields). -/
def splitCharGo (sep : Char) (cur : Str) : Str → List Str
  | [] => [cur.reverse]
  | c :: tl => if c = sep then cur.reverse :: splitCharGo sep [] tl
               else splitCharGo sep (c :: cur) tl

def splitChar (sep : Char) (s : Str) : List Str := splitCharGo sep [] s

/-- Case-insensitive literal prefix test. -/
def ciPrefix : Str → Str → Bool
  | [], _ => true
  | _ :: _, [] => false
  | p :: ps, c :: cs => ciEq p c && ciPrefix ps cs

/-- Case-sensitive literal prefix test. -/
def litPrefix : Str → Str → Bool
  | [], _ => true
  | _ :: _, [] => false
  | p :: ps, c :: cs => (p = c) && litPrefix ps cs

/-- Python str.splitlines restricted to the line breaks LF, CR and CRLF. -/
def splitLinesGo (cur : Str) : Str → List Str
  | [] => [cur.reverse]
  | '\x0d' :: '\n' :: tl =>
    cur.reverse :: (match tl with | [] => [] | _ => splitLinesGo [] tl)
  | c :: tl =>
    if c = '\n' || c = '\x0d' then
      cur.reverse :: (match tl with | [] => [] | _ => splitLinesGo [] tl)
    else splitLinesGo (c :: cur) tl

def splitLinesPy : Str → List Str
  | [] => []
  | s => splitLinesGo [] s

/-- Split on the regex whitespace-star dash whitespace-star, as used by
re.split in parsear_endereco.  A separator match starts at position i
exactly when the first non-whitespace character at or after i is a dash;
the match extends over the surrounding whitespace runs. -/
def splitDashGo (cur : Str) : Nat → Str → List Str
  | 0, _ => [cur.reverse]
  | _, [] => [cur.reverse]
  | fuel + 1, c :: tl =>
    let s := c :: tl
    let r := wsRun s
    match s.drop r with
    | '-' :: rest =>
      cur.reverse :: splitDashGo [] fuel (rest.drop (wsRun rest))
    | _ => splitDashGo (c :: cur) fuel tl

def splitDash (s : Str) : List Str := splitDashGo [] (s.length + 1) s

/-- Python str.split on a literal multi-character separator. -/
def splitLitGo (sep : Str) (cur : Str) : Nat → Str → List Str
  | 0, _ => [cur.reverse]
  | _, [] => [cur.reverse]
  | fuel + 1, c :: tl =>
    if litPrefix sep (c :: tl) then
      cur.reverse :: splitLitGo sep [] fuel ((c :: tl).drop sep.length)
    else splitLitGo sep (c :: cur) fuel tl

def splitLit (sep : Str) (s : Str) : List Str := splitLitGo sep [] (s.length + 1) s

/-!
Value normalizer and spelled-out converter: gerar_valor_extenso
(src/main.py, lines 482-539).
-/

/-- Result of Python float(string): a finite value (modelled exactly as
the decimal num / 10 ^ den10), an infinity, or NaN. -/
inductive PyFloat where
  | fin (num : ℤ) (den10 : Nat)
  | inf (pos : Bool)
  | nan
deriving Repr, DecidableEq

/-- Parse a run of decimal digits with interior underscores, as accepted by
Python numeric literals: digit ((underscore digit) or digit)-star.
Returns the value, the number of digits, and the rest of the input. -/
def parseDigitsU : Str → Option (Nat × Nat × Str)
  | c :: tl =>
    if isDigitCh c then some (parseDigitsUGo (c.toNat - '0'.toNat) 1 tl)
    else none
  | [] => none
where
  parseDigitsUGo (v k : Nat) : Str → (Nat × Nat × Str)
  | c :: tl =>
    if isDigitCh c then parseDigitsUGo (v * 10 + (c.toNat - '0'.toNat)) (k + 1) tl
    else if c = '_' then
      match tl with
      | d :: tl2 =>
        if isDigitCh d then parseDigitsUGo (v * 10 + (d.toNat - '0'.toNat)) (k + 1) tl2
        else (v, k, c :: tl)
      | [] => (v, k, [c])
    else (v, k, c :: tl)
  | [] => (v, k, [])

/-- Model of Python float(string): optional surrounding whitespace, optional
sign, then inf, infinity, nan (case-insensitive) or a decimal literal with
optional fraction and exponent.  Returns none exactly when Python raises
ValueError. -/
def pyFloatParse (s0 : Str) : Option PyFloat :=
  let s1 := stripWs s0
  let (pos, s2) : Bool × Str :=
    match s1 with
    | '+' :: tl => (true, tl)
    | '-' :: tl => (false, tl)
    | _ => (true, s1)
  if ciPrefix "infinity".toList s2 ∧ s2.length = 8 then some (PyFloat.inf pos)
  else if ciPrefix "inf".toList s2 ∧ s2.length = 3 then some (PyFloat.inf pos)
  else if ciPrefix "nan".toList s2 ∧ s2.length = 3 then some PyFloat.nan
  else
    let (ip, ic, s3) : Nat × Nat × Str :=
      match parseDigitsU s2 with
      | some r => r
      | none => (0, 0, s2)
    let (fp, fc, s4) : Nat × Nat × Str :=
      match s3 with
      | '.' :: tl =>
        match parseDigitsU tl with
        | some r => r
        | none => (0, 0, tl)
      | _ => (0, 0, s3)
    if ic + fc = 0 then none
    else
      let mant : Nat := ip * 10 ^ fc + fp
      let signed : ℤ → ℤ := fun z => if pos then z else -z
      match s4 with
      | [] => some (PyFloat.fin (signed mant) fc)
      | e :: tl =>
        if e = 'e' ∨ e = 'E' then
          let (epos, tl2) : Bool × Str :=
            match tl with
            | '+' :: u => (true, u)
            | '-' :: u => (false, u)
            | _ => (true, tl)
          match parseDigitsU tl2 with
          | some (ev, _, []) =>
            if epos then some (PyFloat.fin (signed (mant * 10 ^ ev)) fc)
            else some (PyFloat.fin (signed mant) (fc + ev))
          | _ => none
        else none

/-- Python round-half-to-even applied to the fraction num / den, den
positive. -/
def pyRoundFrac (num den : ℤ) : ℤ :=
  let f := Int.fdiv num den
  let rem := num - f * den
  if 2 * rem < den then f
  else if 2 * rem > den then f + 1
  else if f % 2 = 0 then f else f + 1

def UNIDADES : List Str :=
  ["", "um", "dois", "três", "quatro", "cinco", "seis", "sete", "oito",
   "nove", "dez", "onze", "doze", "treze", "quatorze", "quinze",
   "dezesseis", "dezessete", "dezoito", "dezenove"].map String.toList

def DEZENAS : List Str :=
  ["", "", "vinte", "trinta", "quarenta", "cinquenta", "sessenta",
   "setenta", "oitenta", "noventa"].map String.toList

def CENTENAS : List Str :=
  ["", "cem", "duzentos", "trezentos", "quatrocentos", "quinhentos",
   "seiscentos", "setecentos", "oitocentos", "novecentos"].map String.toList

/-- Decimal digit string of a natural number (Python str(int)). -/
def natRepr (n : Nat) : Str := (Nat.repr n).toList

/-- Inner numeral speller of gerar_valor_extenso (the nested function
named with a leading underscore in src/main.py, lines 508-531).  The fuel
argument is a strict bound on the spelled number; every recursive call
strictly decreases the number, so any fuel above the argument yields the
same value, and extensoNat supplies argument + 1. -/
def extensoGo : Nat → Nat → Str
  | 0, _ => []
  | fuel + 1, n =>
    if n = 0 then "zero".toList
    else if n = 100 then "cem".toList
    else if n < 20 then UNIDADES.getD n []
    else if n < 100 then
      DEZENAS.getD (n / 10) [] ++
        (if n % 10 ≠ 0 then " e ".toList ++ UNIDADES.getD (n % 10) [] else [])
    else if n < 1000 then
      (if n / 100 = 1 ∧ n % 100 > 0 then "cento".toList else CENTENAS.getD (n / 100) []) ++
        (if n % 100 ≠ 0 then " e ".toList ++ extensoGo fuel (n % 100) else [])
    else if n < 1000000 then
      (if n / 1000 = 1 then "mil".toList else extensoGo fuel (n / 1000) ++ " mil".toList) ++
        (if n % 1000 ≠ 0 then " e ".toList ++ extensoGo fuel (n % 1000) else [])
    else if n < 1000000000 then
      (extensoGo fuel (n / 1000000) ++ " ".toList ++
        (if n / 1000000 = 1 then "milhão".toList else "milhões".toList)) ++
        (if n % 1000000 ≠ 0 then " e ".toList ++ extensoGo fuel (n % 1000000) else [])
    else natRepr n

def extensoNat (n : Nat) : Str := extensoGo (n + 1) n

/-- Normalization step of gerar_valor_extenso: remove the characters R,
dollar and whitespace, delete thousands dots, turn the decimal comma into
a dot. -/
def limpoDe (valorStr : Str) : Str :=
  ((valorStr.filter (fun c => ¬(c = 'R' ∨ c = '$' ∨ isSpacePy c))).filter
      (fun c => c ≠ '.')).map (fun c => if c = ',' then '.' else c)

/-- Model of gerar_valor_extenso (src/main.py, lines 482-539).  The result
is none when Python would raise (int of NaN or infinity); some otherwise.
An unparseable residue returns the input unchanged. -/
def gerarValorExtenso (valorStr : Str) : Option Str :=
  match pyFloatParse (limpoDe valorStr) with
  | none => some valorStr
  | some PyFloat.nan => none
  | some (PyFloat.inf _) => none
  | some (PyFloat.fin a k) =>
    let d : ℤ := 10 ^ k
    let inteiros : ℤ := Int.tdiv a d
    let centavos : ℤ := pyRoundFrac ((a - inteiros * d) * 100) d
    let partes : List Str :=
      (if inteiros > 0 then
        [extensoNat inteiros.toNat ++
          (if inteiros = 1 then " real".toList else " reais".toList)]
       else []) ++
      (if centavos > 0 then
        [extensoNat centavos.toNat ++
          (if centavos = 1 then " centavo".toList else " centavos".toList)]
       else [])
    some (if partes ≠ [] then joinSep " e ".toList partes else "zero reais".toList)

/-!
Theorems about the value converter (claims C4, C9, C10).
-/

/-- True when the string contains a decimal digit character. -/
def hasDigit (s : Str) : Bool := s.any isDigitCh

theorem hasDigit_append (a b : Str) :
    hasDigit (a ++ b) = (hasDigit a || hasDigit b) := by
  simp [hasDigit]

theorem hasDigit_append_false {a b : Str} (ha : hasDigit a = false)
    (hb : hasDigit b = false) : hasDigit (a ++ b) = false := by
  rw [hasDigit_append, ha, hb]
  rfl

theorem unidades_noDigit (i : Nat) : hasDigit (UNIDADES.getD i []) = false := by
  rcases Nat.lt_or_ge i 20 with h | h
  · interval_cases i <;> decide
  · rw [List.getD_eq_default]
    · decide
    · have hl : UNIDADES.length = 20 := by decide
      omega

theorem dezenas_noDigit (i : Nat) : hasDigit (DEZENAS.getD i []) = false := by
  rcases Nat.lt_or_ge i 10 with h | h
  · interval_cases i <;> decide
  · rw [List.getD_eq_default]
    · decide
    · have hl : DEZENAS.length = 10 := by decide
      omega

theorem centenas_noDigit (i : Nat) : hasDigit (CENTENAS.getD i []) = false := by
  rcases Nat.lt_or_ge i 10 with h | h
  · interval_cases i <;> decide
  · rw [List.getD_eq_default]
    · decide
    · have hl : CENTENAS.length = 10 := by decide
      omega

theorem extensoGo_noDigit : ∀ fuel n, n < fuel → n < 1000000000 →
    hasDigit (extensoGo fuel n) = false := by
  intro fuel
  induction fuel with
  | zero => omega
  | succ f ih =>
    intro n hf hn
    rw [extensoGo]
    split_ifs
    · decide
    · decide
    · exact unidades_noDigit n
    · exact hasDigit_append_false (dezenas_noDigit _)
        (hasDigit_append_false (by decide) (unidades_noDigit _))
    · exact hasDigit_append_false (dezenas_noDigit _) (by decide)
    · exact hasDigit_append_false (by decide)
        (hasDigit_append_false (by decide) (ih (n % 100) (by omega) (by omega)))
    · exact hasDigit_append_false (by decide) (by decide)
    · exact hasDigit_append_false (centenas_noDigit _)
        (hasDigit_append_false (by decide) (ih (n % 100) (by omega) (by omega)))
    · exact hasDigit_append_false (centenas_noDigit _) (by decide)
    · exact hasDigit_append_false (by decide)
        (hasDigit_append_false (by decide) (ih (n % 1000) (by omega) (by omega)))
    · exact hasDigit_append_false (by decide) (by decide)
    · exact hasDigit_append_false
        (hasDigit_append_false (ih (n / 1000) (by omega) (by omega)) (by decide))
        (hasDigit_append_false (by decide) (ih (n % 1000) (by omega) (by omega)))
    · exact hasDigit_append_false
        (hasDigit_append_false (ih (n / 1000) (by omega) (by omega)) (by decide))
        (by decide)
    · exact hasDigit_append_false
        (hasDigit_append_false
          (hasDigit_append_false (ih (n / 1000000) (by omega) (by omega)) (by decide))
          (by decide))
        (hasDigit_append_false (by decide) (ih (n % 1000000) (by omega) (by omega)))
    · exact hasDigit_append_false
        (hasDigit_append_false
          (hasDigit_append_false (ih (n / 1000000) (by omega) (by omega)) (by decide))
          (by decide))
        (by decide)
    · exact hasDigit_append_false
        (hasDigit_append_false
          (hasDigit_append_false (ih (n / 1000000) (by omega) (by omega)) (by decide))
          (by decide))
        (hasDigit_append_false (by decide) (ih (n % 1000000) (by omega) (by omega)))
    · exact hasDigit_append_false
        (hasDigit_append_false
          (hasDigit_append_false (ih (n / 1000000) (by omega) (by omega)) (by decide))
          (by decide))
        (by decide)

theorem extensoNat_noDigit (n : Nat) (h : n < 1000000000) :
    hasDigit (extensoNat n) = false :=
  extensoGo_noDigit (n + 1) n (by omega) h

/-- Claim C4, counterexample.  The claim states that converting the
currency string R$ 1.234,56 with gerar_valor_extenso yields exactly
"mil duzentos e trinta e quatro reais e cinquenta e seis centavos".
It does not: the code unconditionally inserts the connective " e " between
the thousands prefix and the remainder, so the output begins
"mil e duzentos".  -/
theorem C4_counterexample :
    gerarValorExtenso "R$ 1.234,56".toList ≠
      some "mil duzentos e trinta e quatro reais e cinquenta e seis centavos".toList := by
  decide

/-- Claim C4, amended.  Converting the currency string R$ 1.234,56 with
gerar_valor_extenso yields exactly
"mil e duzentos e trinta e quatro reais e cinquenta e seis centavos"
(the connective after "mil" included, as the code produces it and as its
own docstring example also shows). -/
theorem C4_amended :
    gerarValorExtenso "R$ 1.234,56".toList =
      some "mil e duzentos e trinta e quatro reais e cinquenta e seis centavos".toList := by
  decide

/-- Claim C9.  For every currency string whose residue after the
normalization (strip R, dollar and whitespace, delete dots, decimal comma
to dot) is not parseable as a Python float, gerar_valor_extenso returns
the original input string unchanged: the ValueError branch returns the
input, so no exception escapes and the zero-reais phrase is not produced. -/
theorem C9_unparseable_returns_input (s : Str)
    (h : pyFloatParse (limpoDe s) = none) :
    gerarValorExtenso s = some s := by
  unfold gerarValorExtenso
  rw [h]

/-- Witness for C9 at the concrete input "abc", whose residue "abc" is not
a numeric literal. -/
theorem C9_witness :
    pyFloatParse (limpoDe "abc".toList) = none ∧
      gerarValorExtenso "abc".toList = some "abc".toList :=
  ⟨by decide, C9_unparseable_returns_input "abc".toList (by decide)⟩

/-- Claim C10.  In the numeral speller of gerar_valor_extenso, an integer
part of at least one billion is rendered as its plain decimal digit
string, while any number below one billion is rendered purely in words
(its rendering contains no digit character). -/
theorem C10_integer_rendering (n : Nat) :
    (1000000000 ≤ n → extensoNat n = natRepr n) ∧
      (n < 1000000000 → hasDigit (extensoNat n) = false) := by
  constructor
  · intro h
    rw [extensoNat, extensoGo]
    split_ifs <;> first | rfl | (exfalso; omega)
  · exact extensoNat_noDigit n

/-- Witness for C10 at one billion (digit string) and at 123456789
(spelled out, no digits). -/
theorem C10_witness :
    extensoNat 1000000000 = natRepr 1000000000 ∧
      hasDigit (extensoNat 123456789) = false :=
  ⟨(C10_integer_rendering 1000000000).1 (by norm_num),
   (C10_integer_rendering 123456789).2 (by norm_num)⟩

/-!
Address parser: parsear_endereco (src/gestor_enderecos.py, lines 36-189).
-/

/-- EnderecoEstruturado dataclass (src/gestor_enderecos.py, lines 36-47),
with the dataclass field defaults. -/
structure EnderecoEstruturado where
  tipo_logradouro : Str := []
  logradouro : Str := []
  numero : Str := []
  complemento : Str := []
  bairro : Str := []
  cep : Str := []
  municipio : Str := []
  uf : Str := "PI".toList
  pais : Str := "BR".toList
  endereco_original : Str := []
deriving Repr, DecidableEq

/-- The street-type list of src/gestor_enderecos.py lines 100-106, in the
order produced by sorting on length, longest first (Python sorted is
stable, so equal lengths keep the original order); the compiled
alternation tries the branches in exactly this order. -/
def tiposLogradouroOrdenados : List Str :=
  ["CONDOMINIO", "LOTEAMENTO", "COMUNIDADE", "LOCALIDADE", "TRAVESSA",
   "CONJUNTO", "SERVIDAO", "AVENIDA", "ALAMEDA", "RODOVIA", "ESTRADA",
   "QUADRA", "MUCUNA", "PRACA", "LARGO", "SETOR", "BECO", "VILA", "COND",
   "AREA", "LOTE", "RUA", "ROD", "EST", "AV", "TV", "AL", "PC", "QD",
   "R"].map String.toList

/-- Continuation class of group 1 of the trailing city/state pattern:
ASCII letter (case-insensitive class), whitespace or dash. -/
def isCidadeCont (c : Char) : Bool := isAsciiAlpha c || isSpacePy c || c = '-'

def cidadeRun : Str → Nat
  | [] => 0
  | c :: tl => if isCidadeCont c then cidadeRun tl + 1 else 0

/-- Leftmost match of the anchored trailing pattern group-1 slash
two-letters whitespace-star end (the city/state regex of line 130).
Group 1 is a letter followed by letters, whitespace and dashes; since the
class excludes the slash, the greedy group necessarily ends at the single
slash that terminates its run, so the match at a given start is
deterministic.  Returns the match start, group 1 and group 2. -/
def cidadeSearchGo : Nat → Nat → Str → Option (Nat × Str × Str)
  | 0, _, _ => none
  | fuel + 1, i, s =>
    match s with
    | [] => none
    | c :: tl =>
      (if isAsciiAlpha c then
        let r := cidadeRun tl
        match tl.drop r with
        | '/' :: a :: b :: rest =>
          if isAsciiAlpha a && isAsciiAlpha b && rest.all isSpacePy then
            some (i, c :: tl.take r, [a, b])
          else none
        | _ => none
      else none).orElse (fun _ => cidadeSearchGo fuel (i + 1) tl)

def cidadeSearch (s : Str) : Option (Nat × Str × Str) :=
  cidadeSearchGo (s.length + 1) 0 s

/-- Match of five digits, an optional dash or dot, and three digits at the
head of the input (the postal-code group of line 142).  Returns the eight
digits with the separator dropped (the re.sub of line 144) and the
matched length. -/
def cepDigitsAt : Str → Option (Str × Nat)
  | d1 :: d2 :: d3 :: d4 :: d5 :: rest =>
    if isDigitCh d1 && isDigitCh d2 && isDigitCh d3 && isDigitCh d4 && isDigitCh d5 then
      match rest with
      | x :: rest2 =>
        if x = '-' || x = '.' then
          match rest2 with
          | e1 :: e2 :: e3 :: _ =>
            if isDigitCh e1 && isDigitCh e2 && isDigitCh e3 then
              some ([d1, d2, d3, d4, d5, e1, e2, e3], 9)
            else none
          | _ => none
        else if isDigitCh x then
          match rest2 with
          | e2 :: e3 :: _ =>
            if isDigitCh e2 && isDigitCh e3 then
              some ([d1, d2, d3, d4, d5, x, e2, e3], 8)
            else none
          | _ => none
        else none
      | [] => none
    else none
  | _ => none

/-- Attempt of the labeled postal-code pattern CEP whitespace-star digits
(line 142, case-insensitive) at the head of the input.  Returns the eight
digits and the matched length. -/
def cepAttempt (s : Str) : Option (Str × Nat) :=
  if ciPrefix "CEP".toList s then
    match cepDigitsAt (s.drop (3 + wsRun (s.drop 3))) with
    | some (ds, k) => some (ds, 3 + wsRun (s.drop 3) + k)
    | none => none
  else none

/-- Leftmost match of the labeled postal-code pattern.  Returns the match
start, the eight digits, and the match end. -/
def cepSearchGo : Nat → Nat → Str → Option (Nat × Str × Nat)
  | 0, _, _ => none
  | _ + 1, i, [] => (cepAttempt []).map (fun p => (i, p.1, i + p.2))
  | fuel + 1, i, c :: tl =>
    ((cepAttempt (c :: tl)).map (fun p => (i, p.1, i + p.2))).orElse
      (fun _ => cepSearchGo fuel (i + 1) tl)

def cepSearch (s : Str) : Option (Nat × Str × Nat) :=
  cepSearchGo (s.length + 1) 0 s

/-- Hyphen-separated segments of group 1, stripped and with empties
dropped (line 133). -/
def partesCidadeDe (g1 : Str) : List Str :=
  ((splitDash (stripWs g1)).map stripWs).filter (· ≠ [])

/-- District candidates taken from the city/state suffix: every segment of
group 1 except the last (line 135). -/
def bairrosCidDe (original : Str) : List Str :=
  match cidadeSearch original with
  | some (_, g1, _) => (partesCidadeDe g1).dropLast
  | none => []

/-- Stage 1 of parsear_endereco (lines 129-139): city/state extraction. -/
def stage1 (e : EnderecoEstruturado) (original : Str) :
    EnderecoEstruturado × Str :=
  match cidadeSearch original with
  | some (st, g1, g2) =>
    let cidadeRaw := stripWs g1
    let partesCidade := partesCidadeDe g1
    let municipio :=
      match partesCidade.getLast? with
      | some lastp => pyTitle lastp
      | none => pyTitle cidadeRaw
    let bairrosCid := partesCidade.dropLast
    let original2 := rstripSet " -,".toList (original.take st)
    let e2 := { e with municipio := municipio, uf := pyUpperStr g2 }
    let e3 :=
      if !bairrosCid.isEmpty && e2.bairro.isEmpty then
        { e2 with bairro := joinSep " / ".toList (bairrosCid.map pyTitle) }
      else e2
    (e3, original2)
  | none => (e, original)

/-- Stage 2 of parsear_endereco (lines 141-151): postal-code extraction
and the post-code district scan. -/
def stage2 (e : EnderecoEstruturado) (original : Str) :
    EnderecoEstruturado × Str :=
  match cepSearch original with
  | some (st, ds, en) =>
    let trechoApos := stripSet " -,".toList (original.drop en)
    let original2 := rstripSet " -,".toList (original.take st)
    let e2 := { e with cep := ds }
    let e3 :=
      if !trechoApos.isEmpty then
        let segs := ((splitLit " - ".toList trechoApos).map stripWs).filter (· ≠ [])
        let bairroPos := segs.filter (fun sg => !(sg.contains '/'))
        if !bairroPos.isEmpty && e2.bairro.isEmpty then
          { e2 with bairro := pyTitle (joinSep " / ".toList bairroPos) }
        else e2
      else e2
    (e3, original2)
  | none => (e, original)

/-- BAIRRO label prefix removal (line 157): an anchored case-insensitive
BAIRRO followed by at least one whitespace character is dropped. -/
def stripBairroLabel (p : Str) : Str :=
  if ciPrefix "BAIRRO".toList p then
    let after := p.drop 6
    let r := wsRun after
    if r > 0 then after.drop r else p
  else p

/-- District candidates of the hyphen-split stage: all segments after the
first, with the BAIRRO label stripped (lines 154-159). -/
def stage3Cands (original : Str) : List Str :=
  let partesDash := ((splitDash original).map stripWs).filter (· ≠ [])
  (partesDash.drop 1).map (fun p => stripWs (stripBairroLabel p))

/-- Stage 3 of parsear_endereco (lines 153-161): hyphen-segment split;
returns the updated record and the raw street descriptor. -/
def stage3 (e : EnderecoEstruturado) (original : Str) :
    EnderecoEstruturado × Str :=
  let partesDash := ((splitDash original).map stripWs).filter (· ≠ [])
  let logradouroBruto := partesDash.headD []
  let cands := stage3Cands original
  let e2 :=
    if !cands.isEmpty && e.bairro.isEmpty then
      { e with bairro := joinSep " / ".toList (cands.map pyTitle) }
    else e
  (e2, logradouroBruto)

/-- Global removal of the floor/unit marker: word-boundary N followed by a
lowercase o and optional whitespace (line 164, case-sensitive). -/
def removeNoGo : Nat → Bool → Str → Str
  | 0, _, s => s
  | fuel + 1, prevWord, s =>
    match s with
    | [] => []
    | c :: tl =>
      if c = 'N' ∧ ¬prevWord then
        match tl with
        | 'o' :: tl2 =>
          let r := wsRun tl2
          removeNoGo fuel (r = 0) (tl2.drop r)
        | _ => c :: removeNoGo fuel (isWordPy c) tl
      else c :: removeNoGo fuel (isWordPy c) tl

def removeNo (s : Str) : Str := removeNoGo (s.length + 1) false s

/-- Anchored match of the street-type alternation (line 108): the
alternatives are tried longest first; a match needs a word boundary after
the alternative, then an optional dot and trailing whitespace are
consumed.  Returns the matched alternative as written in the input and
the text after the match. -/
def tipoTry (seg : Str) : List Str → Option (Str × Str)
  | [] => none
  | t :: ts =>
    if ciPrefix t seg then
      let after := seg.drop t.length
      if (match after with | [] => true | c :: _ => !isWordPy c) then
        let after2 := match after with
          | '.' :: rest => rest
          | _ => after
        some (seg.take t.length, after2.drop (wsRun after2))
      else tipoTry seg ts
    else tipoTry seg ts

/-- Character class of the numeric house-number alternative: digits,
whitespace, dot or slash. -/
def isNumChar (c : Char) : Bool := isDigitCh c || isSpacePy c || c = '.' || c = '/'

/-- Full-string match of the house-number shape pattern of line 178:
S/N or SN, a digit followed by digits, whitespace, dots and slashes, or a
lot/block letter Q, L, T or B followed by optional whitespace, a digit
and anything (the final any-star cannot cross a newline). -/
def numeroMatch (p : Str) : Bool :=
  (match p with
   | [s, n] => ciEq s 'S' && ciEq n 'N'
   | [s, sl, n] => ciEq s 'S' && sl = '/' && ciEq n 'N'
   | _ => false) ||
  (match p with
   | c :: tl => isDigitCh c && tl.all isNumChar
   | [] => false) ||
  (match p with
   | c :: tl =>
     (ciEq c 'Q' || ciEq c 'L' || ciEq c 'T' || ciEq c 'B') &&
       (match tl.drop (wsRun tl) with
        | d :: rest => isDigitCh d && rest.all (fun x => x ≠ '\n')
        | [] => false)
   | [] => false)

/-- Stage 4 of parsear_endereco (lines 163-187): street type, street name,
house number and complement. -/
def stage4 (e : EnderecoEstruturado) (logradouroBruto0 : Str) :
    EnderecoEstruturado :=
  let lb := removeNo logradouroBruto0
  let segmentos := (splitChar ',' lb).map stripWs
  let seg0 := segmentos.headD []
  let e2 :=
    match tipoTry seg0 tiposLogradouroOrdenados with
    | some (tipo, rest) =>
      { e with tipo_logradouro := rstripSet ['.'] (pyUpperStr tipo),
               logradouro := pyTitle (stripWs rest) }
    | none =>
      { e with tipo_logradouro := "RUA".toList,
               logradouro := pyTitle (stripWs seg0) }
  let e3 :=
    match segmentos with
    | _ :: possNum :: restSegs =>
      if numeroMatch possNum then
        let e4 := { e2 with numero := pyUpperStr possNum }
        if !restSegs.isEmpty then
          { e4 with complemento := pyTitle (stripWs (joinSep ", ".toList restSegs)) }
        else e4
      else
        { e2 with numero := "S/N".toList,
                  complemento :=
                    pyTitle (stripWs (joinSep ", ".toList (possNum :: restSegs))) }
    | _ => e2
  if e3.numero.isEmpty then { e3 with numero := "S/N".toList } else e3

/-- Working text at the start of parsear_endereco (line 126): whitespace
collapsed and stripped. -/
def originalDe (bruto : Str) : Str := stripWs (collapseWs bruto)

/-- State after the city/state stage. -/
def enderecoPasso1 (bruto : Str) : EnderecoEstruturado × Str :=
  stage1 { endereco_original := originalDe bruto } (originalDe bruto)

/-- State after the postal-code stage. -/
def enderecoPasso2 (bruto : Str) : EnderecoEstruturado × Str :=
  stage2 (enderecoPasso1 bruto).1 (enderecoPasso1 bruto).2

/-- State after the hyphen-segment stage. -/
def enderecoPasso3 (bruto : Str) : EnderecoEstruturado × Str :=
  stage3 (enderecoPasso2 bruto).1 (enderecoPasso2 bruto).2

/-- Model of parsear_endereco (src/gestor_enderecos.py, lines 118-189). -/
def parsearEndereco (enderecoBruto : Str) : EnderecoEstruturado :=
  stage4 (enderecoPasso3 enderecoBruto).1 (enderecoPasso3 enderecoBruto).2

/-!
Structural lemmas about the address stages.
-/

theorem cepDigitsAt_shape (s ds : Str) (k : Nat)
    (h : cepDigitsAt s = some (ds, k)) :
    ds.length = 8 ∧ ds.all isDigitCh = true := by
  unfold cepDigitsAt at h
  repeat' split at h
  all_goals try simp only [Option.some.injEq, Prod.mk.injEq] at h
  all_goals first
    | (obtain ⟨hds, hk⟩ := h
       subst hds
       subst hk
       simp_all [List.all])
    | exact absurd h (by simp)

theorem cepAttempt_shape (s ds : Str) (k : Nat)
    (h : cepAttempt s = some (ds, k)) :
    ds.length = 8 ∧ ds.all isDigitCh = true := by
  unfold cepAttempt at h
  split at h
  · split at h
    · next hd =>
      simp only [Option.some.injEq, Prod.mk.injEq] at h
      exact h.1 ▸ cepDigitsAt_shape _ _ _ hd
    · exact absurd h (by simp)
  · exact absurd h (by simp)

theorem cepSearchGo_shape : ∀ fuel i s st ds en,
    cepSearchGo fuel i s = some (st, ds, en) →
    ds.length = 8 ∧ ds.all isDigitCh = true := by
  intro fuel
  induction fuel with
  | zero =>
    intro i s st ds en h
    exact absurd h (by simp [cepSearchGo])
  | succ f ih =>
    intro i s st ds en h
    cases s with
    | nil =>
      rw [cepSearchGo, show cepAttempt [] = none from rfl] at h
      exact absurd h (by simp)
    | cons c tl =>
      rw [cepSearchGo] at h
      cases ha : cepAttempt (c :: tl) with
      | some p =>
        obtain ⟨ds0, k0⟩ := p
        rw [ha] at h
        simp only [Option.map_some', Option.orElse, Option.some.injEq,
          Prod.mk.injEq] at h
        obtain ⟨-, hds, -⟩ := h
        exact hds ▸ cepAttempt_shape _ _ _ ha
      | none =>
        rw [ha] at h
        simp only [Option.map_none', Option.orElse] at h
        exact ih _ _ _ _ _ h

theorem stage1_cep (e : EnderecoEstruturado) (t : Str) :
    ((stage1 e t).1).cep = e.cep := by
  unfold stage1
  split
  · dsimp only
    split <;> rfl
  · rfl

theorem stage2_cep_some (e : EnderecoEstruturado) (t : Str) (st : Nat)
    (ds : Str) (en : Nat) (h : cepSearch t = some (st, ds, en)) :
    ((stage2 e t).1).cep = ds := by
  unfold stage2
  rw [h]
  dsimp only
  repeat' split
  all_goals rfl

theorem stage2_cep_none (e : EnderecoEstruturado) (t : Str)
    (h : cepSearch t = none) : ((stage2 e t).1).cep = e.cep := by
  unfold stage2
  rw [h]

theorem stage3_cep (e : EnderecoEstruturado) (t : Str) :
    ((stage3 e t).1).cep = e.cep := by
  unfold stage3
  dsimp only
  split <;> rfl

theorem stage4_cep (e : EnderecoEstruturado) (t : Str) :
    (stage4 e t).cep = e.cep := by
  unfold stage4
  dsimp only
  repeat' split
  all_goals rfl

theorem stage2_bairro_kept (e : EnderecoEstruturado) (t : Str)
    (hne : e.bairro ≠ []) : ((stage2 e t).1).bairro = e.bairro := by
  unfold stage2
  split
  · dsimp only
    split
    · split
      · next hcond =>
        exfalso
        simp only [Bool.and_eq_true, List.isEmpty_iff] at hcond
        exact hne hcond.2
      · rfl
    · rfl
  · rfl

theorem stage3_bairro_kept (e : EnderecoEstruturado) (t : Str)
    (hne : e.bairro ≠ []) : ((stage3 e t).1).bairro = e.bairro := by
  unfold stage3
  dsimp only
  split
  · next hcond =>
    exfalso
    simp only [Bool.and_eq_true, List.isEmpty_iff] at hcond
    exact hne hcond.2
  · rfl

theorem stage4_bairro (e : EnderecoEstruturado) (t : Str) :
    (stage4 e t).bairro = e.bairro := by
  unfold stage4
  dsimp only
  repeat' split
  all_goals rfl

theorem pyTitleGo_length (b : Bool) (s : Str) :
    (pyTitleGo b s).length = s.length := by
  induction s generalizing b with
  | nil => rfl
  | cons c tl ih =>
    unfold pyTitleGo
    split <;> simp [ih]

theorem pyTitle_ne_nil {s : Str} (h : s ≠ []) : pyTitle s ≠ [] := by
  intro hc
  apply h
  have hl := pyTitleGo_length false s
  rw [show pyTitleGo false s = pyTitle s from rfl, hc] at hl
  exact List.length_eq_zero.mp hl.symm

theorem joinSep_ne_nil (sep : Str) (x : Str) (xs : List Str) (hx : x ≠ []) :
    joinSep sep (x :: xs) ≠ [] := by
  cases xs with
  | nil =>
    simpa [joinSep] using hx
  | cons y ys =>
    cases x with
    | nil => exact absurd rfl hx
    | cons c ctl => simp [joinSep]

/-!
Claims C3, C5 and C6 about parsear_endereco.
-/

/-- The concrete address scenario of claim C3 (also found in the
docstring and demo of src/gestor_enderecos.py). -/
def mucunaInput : Str :=
  "MUCUNA, S/N - CENTRO - CEP 64790-000 - DOM INOCENCIO/PI".toList

/-- Claim C3, counterexample.  The claim states the scenario yields the
generic street-type RUA with street-name Mucuna.  It does not: MUCUNA is
itself listed in the street-type table (line 105), so the parser matches
it as the street type and leaves the street name empty. -/
theorem C3_counterexample :
    ¬((parsearEndereco mucunaInput).tipo_logradouro = "RUA".toList ∧
      (parsearEndereco mucunaInput).logradouro = "Mucuna".toList) := by
  decide

/-- Claim C3, amended.  Parsing the scenario input yields street-type
MUCUNA (matched from the street-type table, not the RUA default),
street-name empty, and otherwise the claimed fields: number S/N, district
Centro, postal code 64790000, municipality Dom Inocencio, state PI. -/
theorem C3_amended :
    parsearEndereco mucunaInput =
      { tipo_logradouro := "MUCUNA".toList,
        logradouro := [],
        numero := "S/N".toList,
        complemento := [],
        bairro := "Centro".toList,
        cep := "64790000".toList,
        municipio := "Dom Inocencio".toList,
        uf := "PI".toList,
        pais := "BR".toList,
        endereco_original := mucunaInput } := by
  decide

/-- Claim C5, counterexample.  The claim states that with no labeled
postal code the field holds the all-zeros sentinel 00000000.  It does
not: the dataclass default is the empty string and nothing ever fills it,
as the empty input shows. -/
theorem C5_counterexample :
    cepSearch (originalDe []) = none ∧
      (parsearEndereco []).cep ≠ "00000000".toList := by
  decide

/-- Claim C5, amended.  For every input, the postal-code field is either
exactly the eight digits of the first labeled postal-code match (all
digit characters, punctuation dropped), or the empty string when no
labeled code is present after the city/state stage. -/
theorem C5_cep_normalized (bruto : Str) :
    (∀ st ds en, cepSearch ((enderecoPasso1 bruto).2) = some (st, ds, en) →
        (parsearEndereco bruto).cep = ds ∧ ds.length = 8 ∧
          ds.all isDigitCh = true) ∧
      (cepSearch ((enderecoPasso1 bruto).2) = none →
        (parsearEndereco bruto).cep = []) := by
  constructor
  · intro st ds en h
    refine ⟨?_, cepSearchGo_shape _ _ _ _ _ _ h⟩
    show (stage4 (enderecoPasso3 bruto).1 (enderecoPasso3 bruto).2).cep = ds
    rw [stage4_cep]
    show ((stage3 (enderecoPasso2 bruto).1 (enderecoPasso2 bruto).2).1).cep = ds
    rw [stage3_cep]
    exact stage2_cep_some _ _ _ _ _ h
  · intro h
    show (stage4 (enderecoPasso3 bruto).1 (enderecoPasso3 bruto).2).cep = []
    rw [stage4_cep]
    show ((stage3 (enderecoPasso2 bruto).1 (enderecoPasso2 bruto).2).1).cep = []
    rw [stage3_cep]
    show ((stage2 (enderecoPasso1 bruto).1 (enderecoPasso1 bruto).2).1).cep = []
    rw [stage2_cep_none _ _ h]
    show ((stage1 { endereco_original := originalDe bruto } (originalDe bruto)).1).cep = []
    rw [stage1_cep]

/-- Witness for C5 on both branches: a labeled code is normalized to its
eight digits, and a missing code leaves the field empty. -/
theorem C5_witness :
    ((parsearEndereco "RUA A, 1 - CEP 64000-000 - TERESINA/PI".toList).cep =
        "64000000".toList ∧
      "64000000".toList.length = 8 ∧ "64000000".toList.all isDigitCh = true) ∧
      (parsearEndereco "RUA A".toList).cep = [] :=
  ⟨(C5_cep_normalized "RUA A, 1 - CEP 64000-000 - TERESINA/PI".toList).1
      11 "64000000".toList 24 (by decide),
   (C5_cep_normalized "RUA A".toList).2 (by decide)⟩

/-- The concrete input refuting claim C6: the city/state suffix yields the
district candidate NORTE, the later hyphen-segment stage yields CENTRO. -/
def ex6 : Str :=
  "RUA A, 10 - CENTRO - CEP 64000-000 - NORTE - TERESINA/PI".toList

/-- Claim C6, counterexample.  The claim states that district candidates
from the city/state suffix are used only when no district is found by the
later stages, the later stage winning.  The opposite holds: on this input
the hyphen-segment stage yields the candidate CENTRO, yet the output
district is Norte, taken from the suffix in stage 1, because the later
stages only fill an empty district field. -/
theorem C6_counterexample :
    stage3Cands ((enderecoPasso2 ex6).2) = ["CENTRO".toList] ∧
      bairrosCidDe (originalDe ex6) = ["NORTE".toList] ∧
      (parsearEndereco ex6).bairro = "Norte".toList ∧
      (parsearEndereco ex6).bairro ≠ "Centro".toList := by
  decide

/-- Claim C6, amended.  District candidates taken from the city/state
suffix always win: whenever the suffix yields at least one candidate, the
parsed district is exactly the title-cased join of those candidates, and
the later stages (post-code scan, hyphen-segment split) cannot overwrite
it; they are used only when the suffix yielded none. -/
theorem C6_city_district_precedence (bruto : Str)
    (h : bairrosCidDe (originalDe bruto) ≠ []) :
    (parsearEndereco bruto).bairro =
      joinSep " / ".toList ((bairrosCidDe (originalDe bruto)).map pyTitle) := by
  cases hc : cidadeSearch (originalDe bruto) with
  | none =>
    exfalso
    apply h
    unfold bairrosCidDe
    rw [hc]
  | some trip =>
    obtain ⟨st, g1, g2⟩ := trip
    have hbc : bairrosCidDe (originalDe bruto) = (partesCidadeDe g1).dropLast := by
      unfold bairrosCidDe
      rw [hc]
    rw [hbc] at h ⊢
    have hJ : joinSep " / ".toList (((partesCidadeDe g1).dropLast).map pyTitle) ≠ [] := by
      cases hd : (partesCidadeDe g1).dropLast with
      | nil => exact absurd hd h
      | cons a rest =>
        have ha : a ∈ partesCidadeDe g1 :=
          List.mem_of_mem_dropLast (hd ▸ List.mem_cons_self a rest)
        have hal : a ≠ [] := by
          unfold partesCidadeDe at ha
          have hm := List.mem_filter.mp ha
          simpa using hm.2
        exact joinSep_ne_nil _ _ _ (pyTitle_ne_nil hal)
    have hb1 : ((enderecoPasso1 bruto).1).bairro =
        joinSep " / ".toList (((partesCidadeDe g1).dropLast).map pyTitle) := by
      unfold enderecoPasso1 stage1
      rw [hc]
      dsimp only
      rw [if_pos]
      simp only [Bool.and_eq_true, Bool.not_eq_true', List.isEmpty_nil,
        and_true, List.isEmpty_eq_false]
      exact h
    have hb2 : ((enderecoPasso2 bruto).1).bairro =
        joinSep " / ".toList (((partesCidadeDe g1).dropLast).map pyTitle) := by
      unfold enderecoPasso2
      rw [stage2_bairro_kept _ _ (by rw [hb1]; exact hJ)]
      exact hb1
    have hb3 : ((enderecoPasso3 bruto).1).bairro =
        joinSep " / ".toList (((partesCidadeDe g1).dropLast).map pyTitle) := by
      unfold enderecoPasso3
      rw [stage3_bairro_kept _ _ (by rw [hb2]; exact hJ)]
      exact hb2
    unfold parsearEndereco
    rw [stage4_bairro]
    exact hb3

/-- Witness for C6 at the concrete input of the counterexample: the
suffix candidates are nonempty and the parsed district equals their join. -/
theorem C6_witness :
    bairrosCidDe (originalDe ex6) ≠ [] ∧
      (parsearEndereco ex6).bairro =
        joinSep " / ".toList ((bairrosCidDe (originalDe ex6)).map pyTitle) :=
  ⟨by decide, C6_city_district_precedence ex6 (by decide)⟩

/-!
Parties column parser: parsear_partes (src/gestor_enderecos.py,
lines 338-459).
-/

def isDig3 (a b c : Char) : Bool := isDigitCh a && isDigitCh b && isDigitCh c

/-- Match of the bare CPF shape ddd.ddd.ddd-dd at the head of the input
(re_cpf_raw, line 356).  Returns the fourteen matched characters. -/
def cpfRawAt : Str → Option Str
  | a :: b :: c :: '.' :: d :: e :: f :: '.' :: g :: h :: i :: '-' :: j :: k :: _ =>
    if isDig3 a b c && isDig3 d e f && isDig3 g h i && isDigitCh j && isDigitCh k then
      some [a, b, c, '.', d, e, f, '.', g, h, i, '-', j, k]
    else none
  | _ => none

/-- Match of the bare CNPJ shape dd.ddd.ddd slash dddd-dd at the head of
the input (re_cnpj_raw, line 357). -/
def cnpjRawAt : Str → Option Str
  | a :: b :: '.' :: c :: d :: e :: '.' :: f :: g :: h :: '/' :: i :: j :: k :: l :: '-' :: m :: n :: _ =>
    if isDigitCh a && isDigitCh b && isDig3 c d e && isDig3 f g h &&
       isDigitCh i && isDigitCh j && isDigitCh k && isDigitCh l &&
       isDigitCh m && isDigitCh n then
      some [a, b, '.', c, d, e, '.', f, g, h, '/', i, j, k, l, '-', m, n]
    else none
  | _ => none

/-- Group shape of re_cpf_fmt (line 354): three digits, a dot or
whitespace, three digits, a dot or whitespace, three digits, a dash or
whitespace, two digits. -/
def cpfFmtGroupAt : Str → Option Str
  | a :: b :: c :: s1 :: d :: e :: f :: s2 :: g :: h :: i :: s3 :: j :: k :: _ =>
    if isDig3 a b c && (s1 = '.' || isSpacePy s1) && isDig3 d e f &&
       (s2 = '.' || isSpacePy s2) && isDig3 g h i &&
       (s3 = '-' || isSpacePy s3) && isDigitCh j && isDigitCh k then
      some [a, b, c, s1, d, e, f, s2, g, h, i, s3, j, k]
    else none
  | _ => none

/-- Group shape of re_cnpj_fmt (line 355): two digits, separators dot or
whitespace, slash or whitespace, dash or whitespace between the digit
blocks. -/
def cnpjFmtGroupAt : Str → Option Str
  | a :: b :: s1 :: c :: d :: e :: s2 :: f :: g :: h :: s3 :: i :: j :: k :: l :: s4 :: m :: n :: _ =>
    if isDigitCh a && isDigitCh b && (s1 = '.' || isSpacePy s1) &&
       isDig3 c d e && (s2 = '.' || isSpacePy s2) && isDig3 f g h &&
       (s3 = '/' || isSpacePy s3) && isDigitCh i && isDigitCh j &&
       isDigitCh k && isDigitCh l && (s4 = '-' || isSpacePy s4) &&
       isDigitCh m && isDigitCh n then
      some [a, b, s1, c, d, e, s2, f, g, h, s3, i, j, k, l, s4, m, n]
    else none
  | _ => none

/-- Labeled CPF pattern at the head of the input: CPF, whitespace,
optional colon, dot or hash, whitespace, then the group (re_cpf_fmt,
line 354, case-insensitive).  Returns group and matched length. -/
def cpfFmtAt (s : Str) : Option (Str × Nat) :=
  if ciPrefix "CPF".toList s then
    let r1 := wsRun (s.drop 3)
    let s1 := s.drop (3 + r1)
    let symN :=
      match s1 with
      | c :: _ => if c = ':' || c = '.' || c = '#' then 1 else 0
      | [] => 0
    let r2 := wsRun (s1.drop symN)
    match cpfFmtGroupAt ((s1.drop symN).drop r2) with
    | some g => some (g, 3 + r1 + symN + r2 + 14)
    | none => none
  else none

/-- Labeled CNPJ pattern at the head of the input (re_cnpj_fmt,
line 355). -/
def cnpjFmtAt (s : Str) : Option (Str × Nat) :=
  if ciPrefix "CNPJ".toList s then
    let r1 := wsRun (s.drop 4)
    let s1 := s.drop (4 + r1)
    let symN :=
      match s1 with
      | c :: _ => if c = ':' || c = '.' || c = '#' then 1 else 0
      | [] => 0
    let r2 := wsRun (s1.drop symN)
    match cnpjFmtGroupAt ((s1.drop symN).drop r2) with
    | some g => some (g, 4 + r1 + symN + r2 + 18)
    | none => none
  else none

/-- Generic leftmost search: try the attempt at every suffix, leftmost
first. -/
def searchGo (att : Str → Option Str) : Nat → Str → Option Str
  | 0, _ => none
  | fuel + 1, s =>
    match att s with
    | some g => some g
    | none =>
      match s with
      | [] => none
      | _ :: tl => searchGo att fuel tl

def searchStr (att : Str → Option Str) (s : Str) : Option Str :=
  searchGo att (s.length + 1) s

def runOf (p : Char → Bool) : Str → Nat
  | [] => 0
  | c :: tl => if p c then runOf p tl + 1 else 0

/-- First character class of the email pattern (line 358): word
characters, dot, plus, dash. -/
def isEmailC1 (c : Char) : Bool := isWordPy c || c = '.' || c = '+' || c = '-'

/-- Second character class of the email pattern: word characters, dot,
dash. -/
def isEmailC2 (c : Char) : Bool := isWordPy c || c = '.' || c = '-'

/-- Backtracking tail of the email pattern after the at sign: the greedy
domain run gives back characters until a dot followed by at least two
letters is found. -/
def emailTailTry (s2 : Str) : Nat → Option Nat
  | 0 => none
  | b + 1 =>
    match s2.drop (b + 1) with
    | '.' :: rest =>
      let lr := runOf isAsciiAlpha rest
      if lr ≥ 2 then some (b + 1 + 1 + lr) else emailTailTry s2 b
    | _ => emailTailTry s2 b

/-- Email pattern at the head of the input (re_email, line 358).
Returns the matched text and its length. -/
def emailAt (s : Str) : Option (Str × Nat) :=
  let a := runOf isEmailC1 s
  if a = 0 then none
  else
    match s.drop a with
    | '@' :: s2 =>
      match emailTailTry s2 (runOf isEmailC2 s2) with
      | some t => some (s.take (a + 1 + t), a + 1 + t)
      | none => none
    | _ => none

/-- Model of the helper that extracts a document number from a line
(lines 374-381): labeled CPF, bare CPF, labeled CNPJ, bare CNPJ, in that
order; whitespace is removed from the captured group. -/
def extrairDoc (linha : Str) : Option (Str × Str) :=
  match searchStr (fun s => (cpfFmtAt s).map Prod.fst) linha with
  | some g => some (g.filter (fun c => !isSpacePy c), "CPF".toList)
  | none =>
    match searchStr cpfRawAt linha with
    | some g => some (g.filter (fun c => !isSpacePy c), "CPF".toList)
    | none =>
      match searchStr (fun s => (cnpjFmtAt s).map Prod.fst) linha with
      | some g => some (g.filter (fun c => !isSpacePy c), "CNPJ".toList)
      | none =>
        match searchStr cnpjRawAt linha with
        | some g => some (g.filter (fun c => !isSpacePy c), "CNPJ".toList)
        | none => none

/-- A line that is entirely a CPF or a CNPJ (re_linha_so_cpf and
re_linha_so_cnpj, lines 361-362): optional whitespace around the bare
shape and nothing else. -/
def eLinhaDoc (linha : Str) : Bool :=
  ((cpfRawAt (stripWs linha)).isSome && (stripWs linha).length = 14) ||
  ((cnpjRawAt (stripWs linha)).isSome && (stripWs linha).length = 18)

/-- Global erasure of every leftmost nonoverlapping match, for patterns
that do not look at the previous character. -/
def eraseGo (att : Str → Option Nat) : Nat → Str → Str
  | 0, s => s
  | fuel + 1, s =>
    match s with
    | [] => []
    | c :: tl =>
      match att s with
      | some (k + 1) => eraseGo att fuel (s.drop (k + 1))
      | _ => c :: eraseGo att fuel tl

def eraseAll (att : Str → Option Nat) (s : Str) : Str :=
  eraseGo att (s.length + 1) s

/-- Global erasure for patterns with a word boundary at the start: the
attempt receives whether the previous character of the original text is a
word character. -/
def eraseBGo (att : Bool → Str → Option Nat) : Nat → Bool → Str → Str
  | 0, _, s => s
  | fuel + 1, pw, s =>
    match s with
    | [] => []
    | c :: tl =>
      match att pw s with
      | some (k + 1) =>
        eraseBGo att fuel
          (((s.take (k + 1)).getLast?.map isWordPy).getD false) (s.drop (k + 1))
      | _ => c :: eraseBGo att fuel (isWordPy c) tl

def eraseB (att : Bool → Str → Option Nat) (s : Str) : Str :=
  eraseBGo att (s.length + 1) false s

/-- Boundary after a literal: end of input or a non-word character. -/
def boundaryAfter (s : Str) (n : Nat) : Bool :=
  match s.drop n with
  | [] => true
  | c :: _ => !isWordPy c

/-- The literal-word pattern CPF or CNPJ between word boundaries
(line 387, case-insensitive; the branches cannot overlap). -/
def wordDocAt (pw : Bool) (s : Str) : Option Nat :=
  if pw then none
  else if ciPrefix "CPF".toList s && boundaryAfter s 3 then some 3
  else if ciPrefix "CNPJ".toList s && boundaryAfter s 4 then some 4
  else none

/-- Phone pattern of line 388: word boundary, two digits, whitespace,
four or five digits, dash, four digits, word boundary. -/
def foneAt (pw : Bool) (s : Str) : Option Nat :=
  if pw then none
  else
    match s with
    | a :: b :: tl =>
      if isDigitCh a && isDigitCh b then
        let r := wsRun tl
        if r = 0 then none
        else
          let s2 := tl.drop r
          let try5 : Option Nat :=
            match s2 with
            | c1 :: c2 :: c3 :: c4 :: c5 :: '-' :: e1 :: e2 :: e3 :: e4 :: rest =>
              if isDig3 c1 c2 c3 && isDigitCh c4 && isDigitCh c5 &&
                 isDig3 e1 e2 e3 && isDigitCh e4 &&
                 (match rest with | [] => true | c :: _ => !isWordPy c) then
                some (2 + r + 10)
              else none
            | _ => none
          match try5 with
          | some n => some n
          | none =>
            match s2 with
            | c1 :: c2 :: c3 :: c4 :: '-' :: e1 :: e2 :: e3 :: e4 :: rest =>
              if isDig3 c1 c2 c3 && isDigitCh c4 &&
                 isDig3 e1 e2 e3 && isDigitCh e4 &&
                 (match rest with | [] => true | c :: _ => !isWordPy c) then
                some (2 + r + 9)
              else none
            | _ => none
      else none
    | _ => none

def cpfFmtLen (s : Str) : Option Nat := (cpfFmtAt s).map Prod.snd

def cnpjFmtLen (s : Str) : Option Nat := (cnpjFmtAt s).map Prod.snd

def cpfRawLen (s : Str) : Option Nat := (cpfRawAt s).map List.length

def cnpjRawLen (s : Str) : Option Nat := (cnpjRawAt s).map List.length

def emailLen (s : Str) : Option Nat := (emailAt s).map Prod.snd

/-- Cleanup of a continuation line (lines 437-442): the labeled and bare
document patterns, email, the literal CPF and CNPJ words and the phone
pattern are erased, then edge punctuation is stripped. -/
def limpaLinhaCont (l : Str) : Str :=
  let l1 := eraseAll cnpjFmtLen l
  let l2 := eraseAll cpfFmtLen l1
  let l3 := eraseAll cnpjRawLen l2
  let l4 := eraseAll cpfRawLen l3
  let l5 := eraseAll emailLen l4
  let l6 := eraseB wordDocAt l5
  let l7 := eraseB foneAt l6
  stripSet " -,.:".toList l7

/-- Cleanup of the first line of an implicit entry number 1
(lines 452-454): document and email patterns erased, punctuation
stripped; no word or phone erasure here. -/
def limpaLinhaUnica (l : Str) : Str :=
  let l1 := eraseAll cnpjFmtLen l
  let l2 := eraseAll cpfFmtLen l1
  let l3 := eraseAll cnpjRawLen l2
  let l4 := eraseAll cpfRawLen l3
  let l5 := eraseAll emailLen l4
  stripSet " -,.:".toList l5

/-- Name cleanup at flush time (lines 383-390): join the accumulated
fragments, erase the document, email, word and phone patterns, collapse
whitespace, strip edge punctuation, title-case. -/
def limparNome (linhas : List Str) : Str :=
  let n0 := joinSep [' '] linhas
  let n1 := eraseAll cpfFmtLen n0
  let n2 := eraseAll cnpjFmtLen n1
  let n3 := eraseAll cpfRawLen n2
  let n4 := eraseAll cnpjRawLen n3
  let n5 := eraseAll emailLen n4
  let n6 := eraseB wordDocAt n5
  let n7 := eraseB foneAt n6
  pyTitle (stripSet " -,.:#".toList (collapseWs n7))

/-- Separator class of the entry-start pattern (line 352): dash, dot,
closing parenthesis, pipe or whitespace. -/
def sepClassInicio (c : Char) : Bool :=
  c = '-' || c = '.' || c = ')' || c = '|' || isSpacePy c

/-- Entry-start pattern, after the digits: separator candidate at
position k (one character of the separator class), then greedy trailing
whitespace, then a nonempty remainder as group 2. -/
def inicioAfterSep (after : Str) (k : Nat) : Option Str :=
  match after.drop k with
  | c :: rest =>
    if sepClassInicio c then
      let r2 := wsRun rest
      if r2 < rest.length then some (rest.drop r2)
      else if r2 > 0 then some (rest.drop (r2 - 1))
      else none
    else none
  | [] => none

/-- Backtracking loop over the whitespace consumed before the separator,
greedy (longest whitespace prefix first). -/
def inicioSepLoop (after : Str) : Nat → Option Str
  | 0 => inicioAfterSep after 0
  | k + 1 =>
    match inicioAfterSep after (k + 1) with
    | some g => some g
    | none => inicioSepLoop after k

/-- Anchored entry-start pattern (re_inicio, line 352): one or two digits
(greedy), separator with surrounding whitespace, nonempty remainder.
Returns the parsed ordinal and group 2. -/
def matchInicio (l : Str) : Option (Nat × Str) :=
  match l with
  | a :: tl =>
    if isDigitCh a then
      let two :=
        match tl with
        | b :: tl2 =>
          if isDigitCh b then
            (inicioSepLoop tl2 (wsRun tl2)).map
              (fun g => ((a.toNat - '0'.toNat) * 10 + (b.toNat - '0'.toNat), g))
          else none
        | [] => none
      match two with
      | some r => some r
      | none => (inicioSepLoop tl (wsRun tl)).map (fun g => (a.toNat - '0'.toNat, g))
    else none
  | [] => none

/-- PartyRecord of the parties column. -/
structure Parte where
  numero_parte : Nat
  nome : Str
  cpf_cnpj : Str
  tipo_doc : Str
  email : Str
deriving Repr, DecidableEq

/-- Accumulator state of the line loop of parsear_partes
(lines 364-368). -/
structure PartesState where
  partes : List Parte
  numAtual : Option Nat
  nomeLinhas : List Str
  docAtual : Str
  tipoDoc : Str
  emailAtual : Str
deriving Repr, DecidableEq

def estadoInicial : PartesState := ⟨[], none, [], [], [], []⟩

/-- The flush helper (lines 392-400): append the accumulated entry when
one is open. -/
def salvarParte (st : PartesState) : PartesState :=
  match st.numAtual with
  | some n =>
    { st with partes := st.partes ++
        [⟨n, limparNome st.nomeLinhas, st.docAtual, st.tipoDoc, st.emailAtual⟩] }
  | none => st

/-- One step of the line loop of parsear_partes (lines 402-456) on a
stripped nonempty line. -/
def stepCore (st : PartesState) (l : Str) : PartesState :=
  let dt := extrairDoc l
  let em := searchStr (fun s => (emailAt s).map Prod.fst) l
  if eLinhaDoc l then
    match dt with
    | some (doc, td) =>
      if !doc.isEmpty && st.docAtual.isEmpty then
        { st with docAtual := doc, tipoDoc := td }
      else st
    | none => st
  else
    match matchInicio l with
    | some (n, rest) =>
      let st2 := salvarParte st
      { st2 with numAtual := some n, nomeLinhas := [stripWs rest],
                 docAtual := (dt.map Prod.fst).getD [],
                 tipoDoc := (dt.map Prod.snd).getD [],
                 emailAtual := em.getD [] }
    | none =>
      let st1 :=
        match dt with
        | some (doc, td) =>
          if !doc.isEmpty && st.docAtual.isEmpty then
            { st with docAtual := doc, tipoDoc := td }
          else st
        | none => st
      let st2 :=
        match em with
        | some e => if st1.emailAtual.isEmpty then { st1 with emailAtual := e } else st1
        | none => st1
      match st2.numAtual with
      | some _ =>
        let ll := limpaLinhaCont l
        if ll.isEmpty then st2
        else { st2 with nomeLinhas := st2.nomeLinhas ++ [ll] }
      | none =>
        let ll := limpaLinhaUnica l
        { partes := st2.partes, numAtual := some 1,
          nomeLinhas := if ll.isEmpty then [] else [ll],
          docAtual := (dt.map Prod.fst).getD [],
          tipoDoc := (dt.map Prod.snd).getD [],
          emailAtual := em.getD [] }

/-- One raw line: strip it, skip it when empty. -/
def stepLinha (st : PartesState) (raw : Str) : PartesState :=
  let l := stripWs raw
  if l.isEmpty then st else stepCore st l

/-- Model of parsear_partes (src/gestor_enderecos.py, lines 338-459). -/
def parsearPartes (texto : Str) : List Parte :=
  (salvarParte ((splitLinesPy texto).foldl stepLinha estadoInicial)).partes

/-- The concrete parties-column scenario of claim C7. -/
def scenarioPartes : Str :=
  ("1 - JOAO DA SILVA (CPF: 123.456.789-00)\n152.308.643-20\n" ++
   "2 - MARIA OLIVEIRA (CPF 987.654.321-00)").toList

/-- Claim C7.  A line that is entirely a CPF or CNPJ pattern never starts
a new entry and contributes nothing to any name: processing it leaves the
entry list, the open ordinal, the accumulated name fragments and the
email unchanged, and when the current entry already has a document number
the state is entirely unchanged; when it has none, the line's document
number and type are stored.  On the concrete scenario, the parser yields
exactly two entries and entry 1 carries the document number
123.456.789-00 from its own line, the standalone CPF line being ignored. -/
theorem C7_doc_only_lines :
    (∀ (st : PartesState) (l : Str), eLinhaDoc l = true →
      ((stepCore st l).partes = st.partes ∧
        (stepCore st l).numAtual = st.numAtual ∧
        (stepCore st l).nomeLinhas = st.nomeLinhas ∧
        (stepCore st l).emailAtual = st.emailAtual) ∧
      (st.docAtual ≠ [] → stepCore st l = st) ∧
      (∀ doc td, st.docAtual = [] → extrairDoc l = some (doc, td) → doc ≠ [] →
        (stepCore st l).docAtual = doc ∧ (stepCore st l).tipoDoc = td)) ∧
    ((parsearPartes scenarioPartes).length = 2 ∧
      (parsearPartes scenarioPartes).head?.map Parte.cpf_cnpj =
        some "123.456.789-00".toList) := by
  constructor
  · intro st l h
    unfold stepCore
    rw [if_pos h]
    refine ⟨?_, ?_, ?_⟩
    · refine ⟨?_, ?_, ?_, ?_⟩ <;> ((repeat' split) <;> rfl)
    · intro hda
      (repeat' split) <;>
        first
          | rfl
          | (rename_i hcond
             exfalso
             simp only [Bool.and_eq_true, List.isEmpty_iff] at hcond
             exact hda hcond.2)
    · intro doc td hda hdt hdoc
      (repeat' split) <;>
        simp_all [List.isEmpty_iff, Bool.and_eq_true, Bool.not_eq_true']
  · constructor
    · decide
    · decide

/-- Witness for C7: a standalone CPF line leaves a state with an already
filled document number entirely unchanged. -/
theorem C7_witness :
    eLinhaDoc "152.308.643-20".toList = true ∧
      stepCore ⟨[], some 1, ["JOAO".toList], "123.456.789-00".toList,
          "CPF".toList, []⟩ "152.308.643-20".toList =
        ⟨[], some 1, ["JOAO".toList], "123.456.789-00".toList,
          "CPF".toList, []⟩ :=
  ⟨by decide,
   ((C7_doc_only_lines.1 _ _ (by decide)).2.1) (by decide)⟩

/-!
Certificate text extractor: extrair_dados_certidao (src/main.py,
lines 101-301), with the acordao lookup and normalization helpers
(lines 86-98 and 330-355).
-/

/-- Name-start class of the responsible-party pattern (line 201): the
uppercase Latin and accented letters, case-insensitive. -/
def isNomeC1 (c : Char) : Bool :=
  isAsciiAlpha c || isUpperAccented c || isLowerAccented c

/-- Name-continuation class: the start class plus whitespace, dot and
slash. -/
def isNomeC2 (c : Char) : Bool := isNomeC1 c || isSpacePy c || c = '.' || c = '/'

/-- Document-number class of the party pattern: digits, dot, slash,
dash. -/
def isDocC (c : Char) : Bool := isDigitCh c || c = '.' || c = '/' || c = '-'

/-- Tail of the party pattern after the lazy name group: whitespace,
opening parenthesis, CPF or CNPJ, whitespace, optional colon, whitespace,
a nonempty run of document characters, closing parenthesis.  Each greedy
piece is deterministic because its class excludes the next literal.
Returns the type as written, the document group, and the consumed
length. -/
def partyTail (rest : Str) : Option (Str × Str × Nat) :=
  let r := wsRun rest
  match rest.drop r with
  | '(' :: rest2 =>
    let tipoOpt : Option (Str × Nat) :=
      if ciPrefix "CPF".toList rest2 then some (rest2.take 3, 3)
      else if ciPrefix "CNPJ".toList rest2 then some (rest2.take 4, 4)
      else none
    match tipoOpt with
    | some (tipo, tn) =>
      let rest3 := rest2.drop tn
      let r2 := wsRun rest3
      let rest4 := rest3.drop r2
      let cn :=
        match rest4 with
        | ':' :: _ => 1
        | _ => 0
      let rest5 := rest4.drop cn
      let r3 := wsRun rest5
      let rest6 := rest5.drop r3
      let d := runOf isDocC rest6
      if d = 0 then none
      else
        match rest6.drop d with
        | ')' :: _ =>
          some (tipo, rest6.take d, r + 1 + tn + r2 + cn + r3 + d + 1)
        | _ => none
    | none => none
  | _ => none

/-- Lazy expansion of the name group: starting from the accumulated
(reversed) name, first try the tail once the minimum length is reached,
then extend by one continuation character.  Returns the name group, the
type, the document and the total length from the name start. -/
def lazyNameGo : Nat → Str → Nat → Str → Option (Str × Str × Str × Nat)
  | 0, _, _, _ => none
  | fuel + 1, nameRev, minTotal, rest =>
    match (if minTotal ≤ nameRev.length then partyTail rest else none) with
    | some (tipo, doc, k) => some (nameRev.reverse, tipo, doc, nameRev.length + k)
    | none =>
      match rest with
      | c :: tl =>
        if isNomeC2 c then lazyNameGo fuel (c :: nameRev) minTotal tl
        else none
      | [] => none

/-- Name group starting at the head of the input: one start-class
character, then the lazy expansion.  minTotal is 3 for the main pattern
(two or more continuation characters) and 2 for the list-marker pattern
(one or more). -/
def tryName (minTotal : Nat) (s : Str) : Option (Str × Str × Str × Nat) :=
  match s with
  | c :: tl => if isNomeC1 c then lazyNameGo (tl.length + 1) [c] minTotal tl else none
  | [] => none

/-- Preference-ordered candidate lengths of the optional Sr prefix
(the group Sr, optional dot, whitespace-star of line 200): dot present
with the whitespace run given back greedily, then dot absent, then no
prefix at all. -/
def srPrefixCandidates (s : Str) : List Nat :=
  match s with
  | a :: b :: tl =>
    if ciEq a 's' && ciEq b 'r' then
      let withDot :=
        match tl with
        | '.' :: tl2 => (List.range (wsRun tl2 + 1)).reverse.map (fun k => 3 + k)
        | _ => []
      let noDot := (List.range (wsRun tl + 1)).reverse.map (fun k => 2 + k)
      (withDot ++ noDot) ++ [0]
    else [0]
  | _ => [0]

def firstSome {α β : Type} (f : α → Option β) : List α → Option β
  | [] => none
  | a :: tl =>
    match f a with
    | some b => some b
    | none => firstSome f tl

/-- One match of the responsible-party pattern of lines 199-204 at the
head of the input.  Returns name group, type group, document group and
total matched length. -/
def attemptParty (s : Str) : Option (Str × Str × Str × Nat) :=
  firstSome
    (fun k => (tryName 3 (s.drop k)).map
      (fun q => (q.1, q.2.1, q.2.2.1, k + q.2.2.2)))
    (srPrefixCandidates s)

/-- One match of the list-marker party pattern of lines 274-279: an
ASCII letter, a closing parenthesis, whitespace, the optional Sr prefix,
then the party pattern with a shorter minimum name. -/
def attemptPartyB (s : Str) : Option (Str × Str × Str × Nat) :=
  match s with
  | a :: ')' :: tl =>
    if isAsciiAlpha a then
      let r := wsRun tl
      let s2 := tl.drop r
      firstSome
        (fun k => (tryName 2 (s2.drop k)).map
          (fun q => (q.1, q.2.1, q.2.2.1, 2 + r + k + q.2.2.2)))
        (srPrefixCandidates s2)
    else none
  | _ => none

/-- A party-pattern match: captured groups and the index just after the
match in the scanned text. -/
structure PartyMatch where
  nome : Str
  tipo : Str
  doc : Str
  endIdx : Nat
deriving Repr, DecidableEq

/-- All nonoverlapping matches of the party pattern, leftmost first
(re.finditer). -/
def finditerGo (att : Str → Option (Str × Str × Str × Nat)) :
    Nat → Nat → Str → List PartyMatch
  | 0, _, _ => []
  | fuel + 1, i, s =>
    match s with
    | [] => []
    | _ :: tl =>
      match att s with
      | some (nome, tipo, doc, len) =>
        if len = 0 then finditerGo att fuel (i + 1) tl
        else ⟨nome, tipo, doc, i + len⟩ :: finditerGo att fuel (i + len) (s.drop len)
      | none => finditerGo att fuel (i + 1) tl

def finditerParty (s : Str) : List PartyMatch :=
  finditerGo attemptParty (s.length + 1) 0 s

def finditerPartyB (s : Str) : List PartyMatch :=
  finditerGo attemptPartyB (s.length + 1) 0 s

/-- Prefix of the CERTIFICO-ainda patterns (lines 186 and 192):
CERTIFICO comma, at least one whitespace character, ainda
(case-insensitive). -/
def certificoPrefixAt (s : Str) : Option Nat :=
  if ciPrefix "CERTIFICO,".toList s then
    let r := wsRun (s.drop 10)
    if r = 0 then none
    else if ciPrefix "ainda".toList ((s.drop 10).drop r) then some (10 + r + 5)
    else none
  else none

/-- First index at which the literal matches case-insensitively. -/
def findCiIdxGo (lit : Str) : Nat → Nat → Str → Option Nat
  | 0, _, _ => none
  | fuel + 1, i, s =>
    if ciPrefix lit s then some i
    else
      match s with
      | [] => none
      | _ :: tl => findCiIdxGo lit fuel (i + 1) tl

def findCiIdx (lit : Str) (s : Str) : Option Nat :=
  findCiIdxGo lit (s.length + 1) 0 s

/-- Match of the lazy paragraph pattern of line 186 at the head of the
input: the CERTIFICO-ainda prefix, at least one character, and the
closing literal; the lazy dot-plus makes the earliest closing literal
win. -/
def certSubAttempt (s : Str) : Option Str :=
  match certificoPrefixAt s with
  | some p =>
    match findCiIdx "substituí-la.".toList (s.drop (p + 1)) with
    | some j => some (s.take (p + 1 + j + 13))
    | none => none
  | none => none

/-- Match of the greedy fallback pattern of line 192 at the head of the
input: the prefix followed by at least one character takes everything to
the end of the text. -/
def certRestAttempt (s : Str) : Option Str :=
  match certificoPrefixAt s with
  | some p => if p < s.length then some s else none
  | none => none

/-- The paragraph used for the primary party extraction (lines 176-196):
the lazy pattern, else the greedy fallback, else the whole text. -/
def trechoResp (flat : Str) : Str :=
  match searchStr certSubAttempt flat with
  | some g => g
  | none =>
    match searchStr certRestAttempt flat with
    | some g => g
    | none => flat

/-- Existence of rol after excluiu within up to one hundred non-dot
characters. -/
def excluiuLoop : Nat → Str → Bool
  | 0, s => ciPrefix "rol".toList s
  | k + 1, s =>
    ciPrefix "rol".toList s ||
      (match s with
       | c :: tl => c ≠ '.' && excluiuLoop k tl
       | [] => false)

/-- Match of the exclusion pattern of lines 253-255 at the head of the
input: excluiu, up to one hundred non-dot characters, rol; or excluído
do rol with whitespace. -/
def exclusaoAt (s : Str) : Bool :=
  (if ciPrefix "excluiu".toList s then excluiuLoop 100 (s.drop 7) else false) ||
  (if ciPrefix "excluído".toList s then
    let s1 := s.drop 8
    let r := wsRun s1
    if r = 0 then false
    else
      let s2 := s1.drop r
      if ciPrefix "do".toList s2 then
        let s3 := s2.drop 2
        let r2 := wsRun s3
        if r2 = 0 then false else ciPrefix "rol".toList (s3.drop r2)
      else false
  else false)

def temExclusaoGo : Nat → Str → Bool
  | 0, _ => false
  | fuel + 1, s =>
    exclusaoAt s ||
      (match s with
       | [] => false
       | _ :: tl => temExclusaoGo fuel tl)

/-- Whether the exclusion pattern matches anywhere in the window. -/
def temExclusao (s : Str) : Bool := temExclusaoGo (s.length + 1) s

/-- Match of the suffix-removal pattern of _normalizar_acordao (line 97)
at the head of the input: slash, four digits, whitespace, dash in either
form, whitespace, at least one word character; the replacement keeps the
slash-year group. -/
def normSubAt : Str → Option (Str × Nat)
  | '/' :: a :: b :: c :: d :: rest =>
    if isDigitCh a && isDigitCh b && isDigitCh c && isDigitCh d then
      let r := wsRun rest
      match rest.drop r with
      | dash :: rest2 =>
        if dash = '-' || dash = '–' then
          let r2 := wsRun rest2
          let w := runOf isWordPy (rest2.drop r2)
          if w ≥ 1 then some (['/', a, b, c, d], 5 + r + 1 + r2 + w) else none
        else none
      | [] => none
    else none
  | _ => none

def normSubGo : Nat → Str → Str
  | 0, s => s
  | fuel + 1, s =>
    match s with
    | [] => []
    | c :: tl =>
      match normSubAt s with
      | some (rep, k) => rep ++ normSubGo fuel (s.drop k)
      | none => c :: normSubGo fuel tl

/-- Model of _normalizar_acordao (src/main.py, lines 86-98). -/
def normalizarAcordao (s : Str) : Str :=
  normSubGo (s.length + 1) (stripWs s)

/-- First index of a case-sensitive literal occurrence. -/
def findLitIdxGo (lit : Str) : Nat → Nat → Str → Option Nat
  | 0, _, _ => none
  | fuel + 1, i, s =>
    if litPrefix lit s then some i
    else
      match s with
      | [] => none
      | _ :: tl => findLitIdxGo lit fuel (i + 1) tl

def findLitIdx (lit : Str) (s : Str) : Option Nat :=
  findLitIdxGo lit (s.length + 1) 0 s

/-- The number group dddd-slash-dddd of the acordao patterns: one to five
digits, slash, exactly four digits.  The greedy digit run is
deterministic because a slash cannot occur inside it. -/
def numSlashAt (s : Str) : Option Str :=
  let d := runOf isDigitCh s
  if d = 0 then none
  else if d ≤ 5 then
    match s.drop d with
    | '/' :: rest =>
      if (rest.take 4).length = 4 && (rest.take 4).all isDigitCh then
        some (s.take d ++ '/' :: rest.take 4)
      else none
    | _ => none
  else none

/-- The ACORDAO literal of line 343, case-insensitive, with the plain or
accented third and sixth letters. -/
def acordaoLitAt (s : Str) : Option Nat :=
  match s with
  | a :: c :: o1 :: r :: d :: a2 :: o2 :: _ =>
    if ciEq a 'a' && ciEq c 'c' && (ciEq o1 'ó' || ciEq o1 'o') &&
       ciEq r 'r' && ciEq d 'd' && (ciEq a2 'ã' || ciEq a2 'a') &&
       ciEq o2 'o' then some 7
    else none
  | _ => none

/-- Match of the acordao-anchored pattern of lines 342-346 at the head of
the input: the literal, then under the lazy any-star the earliest number
group wins.  Returns group 1. -/
def acordaoCiAttempt (s : Str) : Option Str :=
  match acordaoLitAt s with
  | some p => searchStr numSlashAt (s.drop p)
  | none => none

/-- Leftmost bare number with word boundaries (line 350). -/
def bareNumGo : Nat → Bool → Str → Option Str
  | 0, _, _ => none
  | fuel + 1, pw, s =>
    match
      (if pw then none
       else
         match numSlashAt s with
         | some g => if boundaryAfter s g.length then some g else none
         | none => none) with
    | some g => some g
    | none =>
      match s with
      | [] => none
      | c :: tl => bareNumGo fuel (isWordPy c) tl

def bareNumSearch (s : Str) : Option Str := bareNumGo (s.length + 1) false s

/-- Model of _buscar_acordao_por_doc (src/main.py, lines 330-355): the
document number is located verbatim, the four hundred characters after it
are scanned first with the acordao-anchored pattern, then for a bare
boundary-delimited number; the result is normalized. -/
def buscarAcordaoPorDoc (flat : Str) (numDoc : Str) : Option Str :=
  match findLitIdx numDoc flat with
  | none => none
  | some i =>
    let trecho := (flat.drop (i + numDoc.length)).take 400
    match searchStr acordaoCiAttempt trecho with
    | some g => some (normalizarAcordao g)
    | none =>
      match bareNumSearch trecho with
      | some g => some (normalizarAcordao g)
      | none => none

/-- The class complementary to R under IGNORECASE: both cases of the
letter are excluded. -/
def nonR (c : Char) : Bool := !(ciEq c 'R')

/-- The literal R dollar with trailing whitespace and the amount group of
digits, dots and commas (the tail shared by both branches of the value
pattern at line 139).  Returns the group. -/
def valorTail (s : Str) : Option Str :=
  match s with
  | r :: '$' :: tl =>
    if ciEq r 'R' then
      let w := wsRun tl
      let s2 := tl.drop w
      let d := runOf (fun c => isDigitCh c || c = '.' || c = ',') s2
      if d = 0 then none else some (s2.take d)
    else none
  | _ => none

/-- First branch of the value pattern (line 138): restituir, up to eighty
characters other than R in either case, then the amount tail. -/
def valorBranch1At (s : Str) : Option Str :=
  if ciPrefix "restituir".toList s then
    let s1 := s.drop 9
    let k := runOf nonR s1
    if k ≤ 80 then valorTail (s1.drop k) else none
  else none

/-- Second branch of the value pattern (line 138): valor, whitespace,
final or do-debito-atualizado, up to twenty non-R characters, the amount
tail. -/
def valorBranch2At (s : Str) : Option Str :=
  if ciPrefix "valor".toList s then
    let s1 := s.drop 5
    let r := wsRun s1
    if r = 0 then none
    else
      let s2 := s1.drop r
      let afterLabel : Option Str :=
        if ciPrefix "final".toList s2 then some (s2.drop 5)
        else if ciPrefix "do".toList s2 then
          let s3 := s2.drop 2
          let r2 := wsRun s3
          if r2 = 0 then none
          else if ciPrefix "débito".toList (s3.drop r2) then
            let s4 := (s3.drop r2).drop 6
            let r3 := wsRun s4
            if r3 = 0 then none
            else if ciPrefix "atualizado".toList (s4.drop r3) then
              some ((s4.drop r3).drop 10)
            else none
          else none
        else none
      match afterLabel with
      | some s5 =>
        let k := runOf nonR s5
        if k ≤ 20 then valorTail (s5.drop k) else none
      | none => none
  else none

/-- Leftmost match of the labeled value pattern of lines 137-141. -/
def valorPrimario (flat : Str) : Option Str :=
  searchStr
    (fun s =>
      match valorBranch1At s with
      | some g => some g
      | none => valorBranch2At s) flat

/-- Formatted-amount group of the fallback pattern (line 146): one to
three digits, dot-separated three-digit groups, comma, two digits, with
greedy backtracking over the digit count and the group count. -/
def dotGroupsCount : Str → Nat
  | '.' :: a :: b :: c :: rest =>
    if isDig3 a b c then dotGroupsCount rest + 1 else 0
  | _ => 0

def commaTail (s : Str) : Bool :=
  match s with
  | ',' :: x :: y :: _ => isDigitCh x && isDigitCh y
  | _ => false

def currencyNumTryG (s : Str) (a : Nat) : Nat → Option Nat
  | 0 => if commaTail (s.drop a) then some (a + 3) else none
  | g + 1 =>
    if commaTail (s.drop (a + 4 * (g + 1))) then some (a + 4 * (g + 1) + 3)
    else currencyNumTryG s a g

def currencyNum (s : Str) : Option Str :=
  let run := runOf isDigitCh s
  let tryA : Nat → Option Nat := fun a =>
    if a ≤ run then currencyNumTryG s a (dotGroupsCount (s.drop a)) else none
  match tryA 3 with
  | some L => some (s.take L)
  | none =>
    match tryA 2 with
    | some L => some (s.take L)
    | none =>
      match tryA 1 with
      | some L => some (s.take L)
      | none => none

/-- One match of the currency pattern at the head of the input: an
uppercase R (the findall of line 146 carries no IGNORECASE flag, unlike
the labeled pattern of line 138), dollar, whitespace, the formatted
group.  Returns the group and the matched length. -/
def currencyAt (s : Str) : Option (Str × Nat) :=
  match s with
  | 'R' :: '$' :: tl =>
    let w := wsRun tl
    match currencyNum (tl.drop w) with
    | some g => some (g, 2 + w + g.length)
    | none => none
  | _ => none

def findallCurrencyGo : Nat → Str → List Str
  | 0, _ => []
  | fuel + 1, s =>
    match s with
    | [] => []
    | _ :: tl =>
      match currencyAt s with
      | some (g, len) => g :: findallCurrencyGo fuel (s.drop (max len 1))
      | none => findallCurrencyGo fuel tl

/-- All groups of the currency pattern, in text order (re.findall,
line 146). -/
def findallCurrency (s : Str) : List Str :=
  findallCurrencyGo (s.length + 1) s

/-- The extracted monetary value (lines 136-148): the first labeled
amount, else the last formatted amount anywhere, else none. -/
def valorAtualizado (flat : Str) : Option Str :=
  match valorPrimario flat with
  | some g => some ("R$ ".toList ++ g)
  | none =>
    match (findallCurrency flat).getLast? with
    | some g => some ("R$ ".toList ++ g)
    | none => none

/-- Match of the case-number pattern of lines 127-130 at the head of the
input: processo, whitespace, n with an optional ordinal mark, whitespace,
then the group TC, slash or whitespace, six digits, slash or whitespace,
four digits. -/
def processoAt (s : Str) : Option Str :=
  if ciPrefix "processo".toList s then
    let s1 := s.drop 8
    let r := wsRun s1
    if r = 0 then none
    else
      match s1.drop r with
      | n :: s3 =>
        if ciEq n 'n' then
          let o :=
            match s3 with
            | c :: _ => if c = 'o' || c = 'O' || c = 'º' || c = '°' then 1 else 0
            | [] => 0
          let s4 := s3.drop o
          let r2 := wsRun s4
          match s4.drop r2 with
          | t :: c2 :: sep :: rest =>
            if ciEq t 't' && ciEq c2 'c' && (sep = '/' || isSpacePy sep) &&
               (rest.take 6).length = 6 && (rest.take 6).all isDigitCh then
              match rest.drop 6 with
              | sep2 :: rest2 =>
                if (sep2 = '/' || isSpacePy sep2) &&
                   (rest2.take 4).length = 4 && (rest2.take 4).all isDigitCh then
                  some ([t, c2, sep] ++ rest.take 6 ++ sep2 :: rest2.take 4)
                else none
              | [] => none
            else none
          | _ => none
        else none
      | [] => none
  else none

/-- The case number (lines 127-132): the first labeled match, with every
whitespace character of the group turned into a slash. -/
def numeroProcesso (flat : Str) : Option Str :=
  (searchStr processoAt flat).map
    (fun g => g.map (fun c => if isSpacePy c then '/' else c))

def dataShapeAt : Str → Option Str
  | a :: b :: '/' :: c :: d :: '/' :: e :: f :: g :: h :: _ =>
    if isDigitCh a && isDigitCh b && isDigitCh c && isDigitCh d &&
       isDigitCh e && isDigitCh f && isDigitCh g && isDigitCh h then
      some [a, b, '/', c, d, '/', e, f, g, h]
    else none
  | _ => none

/-- First date pattern of line 154 (case-sensitive apart from the
initial letter): Atualizado or atualizado, whitespace, em, a nonempty run
of colons and whitespace, the date. -/
def dataP1At (s : Str) : Option Str :=
  match s with
  | c :: tl =>
    if (c = 'A' || c = 'a') && litPrefix "tualizado".toList tl then
      let s1 := tl.drop 9
      let r := wsRun s1
      if r = 0 then none
      else
        match s1.drop r with
        | 'e' :: 'm' :: s2 =>
          let k := runOf (fun x => x = ':' || isSpacePy x) s2
          if k = 0 then none else dataShapeAt (s2.drop k)
        | _ => none
    else none
  | [] => none

/-- Second date pattern of line 155 (case-sensitive): até, whitespace,
the date. -/
def dataP2At (s : Str) : Option Str :=
  if litPrefix "até".toList s then
    let s1 := s.drop 3
    let r := wsRun s1
    if r = 0 then none else dataShapeAt (s1.drop r)
  else none

/-- The update date (lines 153-160): the first pattern anywhere wins,
else the second. -/
def dataAtualizacao (flat : Str) : Option Str :=
  match searchStr dataP1At flat with
  | some g => some g
  | none => searchStr dataP2At flat

/-- Match of the origin-acordao pattern of lines 165-167 at the head of
the input (case-sensitive apart from the initial letter): Acordao with
the accented or plain letters, whitespace, a lowercase n with an optional
ordinal mark, whitespace, then digits, an optional dash with uppercase
letters, a slash and four digits. -/
def acordaoOrigemAt (s : Str) : Option Str :=
  match s with
  | a0 :: tl =>
    if (a0 = 'A' || a0 = 'a') && litPrefix "córd".toList tl then
      match tl.drop 4 with
      | aa :: 'o' :: s1 =>
        if aa = 'ã' || aa = 'a' then
          let r := wsRun s1
          if r = 0 then none
          else
            match s1.drop r with
            | 'n' :: s2 =>
              let o :=
                match s2 with
                | c :: _ => if c = 'o' || c = 'º' || c = '°' then 1 else 0
                | [] => 0
              let s3 := s2.drop o
              let r2 := wsRun s3
              let s4 := s3.drop r2
              let d := runOf isDigitCh s4
              if d = 0 then none
              else
                match s4.drop d with
                | '-' :: s6 =>
                  let caps := runOf isAsciiUpper s6
                  if caps = 0 then none
                  else
                    match s6.drop caps with
                    | '/' :: s7 =>
                      if (s7.take 4).length = 4 && (s7.take 4).all isDigitCh then
                        some (s4.take d ++ '-' :: s6.take caps ++ '/' :: s7.take 4)
                      else none
                    | _ => none
                | '/' :: s7 =>
                  if (s7.take 4).length = 4 && (s7.take 4).all isDigitCh then
                    some (s4.take d ++ '/' :: s7.take 4)
                  else none
                | _ => none
            | _ => none
        else none
      | _ => none
    else none
  | [] => none

/-- The origin acordao (lines 164-170): first match anywhere,
normalized. -/
def acordaoOrigem (flat : Str) : Option Str :=
  (searchStr acordaoOrigemAt flat).map normalizarAcordao

/-- ResponsibleParty record. -/
structure Responsavel where
  nome : Str
  tipo_doc : Str
  numero_doc : Str
  acordao : Option Str
  excluido : Bool
deriving Repr, DecidableEq

/-- The anchored prefix removal of lines 217 and 261: a leading e with
whitespace, Sr with optional dot and whitespace, or a with whitespace is
removed once, then the result is stripped. -/
def prefixoSub (nome : Str) : Str :=
  match nome with
  | [] => []
  | c :: tl =>
    if ciEq c 'e' && wsRun tl > 0 then tl.drop (wsRun tl)
    else if (match tl with
             | b :: _ => ciEq c 's' && ciEq b 'r'
             | [] => false) then
      match tl with
      | _ :: '.' :: tl3 => tl3.drop (wsRun tl3)
      | _ :: tl2 => tl2.drop (wsRun tl2)
      | [] => nome
    else if ciEq c 'a' && wsRun tl > 0 then tl.drop (wsRun tl)
    else nome

def stripPrefixoNome (nome : Str) : Str := stripWs (prefixoSub nome)

/-- Primary tier (lines 199-229): every match of the party pattern in
the CERTIFICO-ainda paragraph, deduplicated by document number through
the vistos accumulator, with the name prefix stripped and the per-party
acordao lookup; no exclusion check here. -/
def tier1Fold (flat : Str) : List Str → List PartyMatch →
    List Str × List Responsavel
  | vistos, [] => (vistos, [])
  | vistos, pm :: rest =>
    if pm.doc ∈ vistos then tier1Fold flat vistos rest
    else
      let r := tier1Fold flat (pm.doc :: vistos) rest
      (r.1, ⟨stripPrefixoNome (stripWs pm.nome), pyUpperStr pm.tipo,
             pm.doc, buscarAcordaoPorDoc flat pm.doc, false⟩ :: r.2)

/-- Fallback A (lines 238-270): the same pattern over the whole text,
each match rejected when the seven hundred characters after it contain
the exclusion pattern. -/
def fallbackAFold (flat : Str) : List Str → List PartyMatch →
    List Str × List Responsavel
  | vistos, [] => (vistos, [])
  | vistos, pm :: rest =>
    if pm.doc ∈ vistos then fallbackAFold flat vistos rest
    else if temExclusao ((flat.drop pm.endIdx).take 700) then
      fallbackAFold flat vistos rest
    else
      let r := fallbackAFold flat (pm.doc :: vistos) rest
      (r.1, ⟨stripPrefixoNome (stripWs pm.nome), pyUpperStr pm.tipo,
             pm.doc, buscarAcordaoPorDoc flat pm.doc, false⟩ :: r.2)

/-- Fallback B (lines 273-299): the list-marker pattern with the same
exclusion check; the name is only stripped of whitespace. -/
def fallbackBFold (flat : Str) : List Str → List PartyMatch →
    List Str × List Responsavel
  | vistos, [] => (vistos, [])
  | vistos, pm :: rest =>
    if pm.doc ∈ vistos then fallbackBFold flat vistos rest
    else if temExclusao ((flat.drop pm.endIdx).take 700) then
      fallbackBFold flat vistos rest
    else
      let r := fallbackBFold flat (pm.doc :: vistos) rest
      (r.1, ⟨stripWs pm.nome, pyUpperStr pm.tipo, pm.doc,
             buscarAcordaoPorDoc flat pm.doc, false⟩ :: r.2)

/-- CertificateRecord. -/
structure DadosCertidao where
  numero_processo : Option Str
  valor_atualizado : Option Str
  data_atualizacao : Option Str
  acordao_origem : Option Str
  responsaveis : List Responsavel
deriving Repr, DecidableEq

/-- The primary-tier output for a given input text. -/
def tier1Resps (texto : Str) : List Responsavel :=
  (tier1Fold (collapseWs texto) []
    (finditerParty (trechoResp (collapseWs texto)))).2

/-- Model of extrair_dados_certidao (src/main.py, lines 101-301).  The
first CERTIFICO search of lines 178-181 is immediately overwritten by the
one of lines 185-188 and has no effect, so it is not modelled. -/
def extrairDadosCertidao (texto : Str) : DadosCertidao :=
  let flat := collapseWs texto
  let t1 := tier1Fold flat [] (finditerParty (trechoResp flat))
  let resps :=
    if t1.2.isEmpty then
      let t2 := fallbackAFold flat t1.1 (finditerParty flat)
      if t2.2.isEmpty then (fallbackBFold flat t2.1 (finditerPartyB flat)).2
      else t2.2
    else t1.2
  { numero_processo := numeroProcesso flat,
    valor_atualizado := valorAtualizado flat,
    data_atualizacao := dataAtualizacao flat,
    acordao_origem := acordaoOrigem flat,
    responsaveis := resps }

/-- In the primary tier, the emitted document numbers are distinct and
none of them was in the incoming accumulator. -/
theorem tier1Fold_docs (flat : Str) : ∀ (ms : List PartyMatch) (vistos : List Str),
    ((tier1Fold flat vistos ms).2.map Responsavel.numero_doc).Nodup ∧
      ∀ d ∈ (tier1Fold flat vistos ms).2.map Responsavel.numero_doc, d ∉ vistos := by
  intro ms
  induction ms with
  | nil => intro vistos; simp [tier1Fold]
  | cons pm rest ih =>
    intro vistos
    unfold tier1Fold
    split
    · exact ih vistos
    · rename_i hnm
      dsimp only
      simp only [List.map_cons]
      constructor
      · rw [List.nodup_cons]
        refine ⟨fun hmem => ?_, (ih (pm.doc :: vistos)).1⟩
        exact (ih (pm.doc :: vistos)).2 pm.doc hmem (List.mem_cons_self _ _)
      · intro d hd
        rcases List.mem_cons.mp hd with he | htl
        · exact he ▸ hnm
        · exact fun hv =>
            (ih (pm.doc :: vistos)).2 d htl (List.mem_cons_of_mem _ hv)

/-- Same accumulator invariant for fallback A. -/
theorem fallbackAFold_docs (flat : Str) : ∀ (ms : List PartyMatch) (vistos : List Str),
    ((fallbackAFold flat vistos ms).2.map Responsavel.numero_doc).Nodup ∧
      ∀ d ∈ (fallbackAFold flat vistos ms).2.map Responsavel.numero_doc, d ∉ vistos := by
  intro ms
  induction ms with
  | nil => intro vistos; simp [fallbackAFold]
  | cons pm rest ih =>
    intro vistos
    unfold fallbackAFold
    split
    · exact ih vistos
    · rename_i hnm
      split
      · exact ih vistos
      · dsimp only
        simp only [List.map_cons]
        constructor
        · rw [List.nodup_cons]
          refine ⟨fun hmem => ?_, (ih (pm.doc :: vistos)).1⟩
          exact (ih (pm.doc :: vistos)).2 pm.doc hmem (List.mem_cons_self _ _)
        · intro d hd
          rcases List.mem_cons.mp hd with he | htl
          · exact he ▸ hnm
          · exact fun hv =>
              (ih (pm.doc :: vistos)).2 d htl (List.mem_cons_of_mem _ hv)

/-- Same accumulator invariant for fallback B. -/
theorem fallbackBFold_docs (flat : Str) : ∀ (ms : List PartyMatch) (vistos : List Str),
    ((fallbackBFold flat vistos ms).2.map Responsavel.numero_doc).Nodup ∧
      ∀ d ∈ (fallbackBFold flat vistos ms).2.map Responsavel.numero_doc, d ∉ vistos := by
  intro ms
  induction ms with
  | nil => intro vistos; simp [fallbackBFold]
  | cons pm rest ih =>
    intro vistos
    unfold fallbackBFold
    split
    · exact ih vistos
    · rename_i hnm
      split
      · exact ih vistos
      · dsimp only
        simp only [List.map_cons]
        constructor
        · rw [List.nodup_cons]
          refine ⟨fun hmem => ?_, (ih (pm.doc :: vistos)).1⟩
          exact (ih (pm.doc :: vistos)).2 pm.doc hmem (List.mem_cons_self _ _)
        · intro d hd
          rcases List.mem_cons.mp hd with he | htl
          · exact he ▸ hnm
          · exact fun hv =>
              (ih (pm.doc :: vistos)).2 d htl (List.mem_cons_of_mem _ hv)

/-- C2: for every certificate text, no two entries of the
responsible-party list returned by extrair_dados_certidao carry the same
document number: each tier skips any match whose document number is
already in the vistos accumulator, and the accumulator is threaded
through all three tiers. -/
theorem C2_doc_dedup (texto : Str) :
    ((extrairDadosCertidao texto).responsaveis.map Responsavel.numero_doc).Nodup := by
  unfold extrairDadosCertidao
  dsimp only
  split
  · split
    · exact (fallbackBFold_docs _ _ _).1
    · exact (fallbackAFold_docs _ _ _).1
  · exact (tier1Fold_docs _ _ _).1

/-- Every entry produced by fallback A stems from a match of the general
party pattern whose seven-hundred-character follow-up window does not
contain the exclusion phrase. -/
theorem fallbackAFold_excl (flat : Str) : ∀ (ms : List PartyMatch) (vistos : List Str)
    (r : Responsavel), r ∈ (fallbackAFold flat vistos ms).2 →
      ∃ pm ∈ ms, r.numero_doc = pm.doc ∧
        temExclusao ((flat.drop pm.endIdx).take 700) = false := by
  intro ms
  induction ms with
  | nil => intro vistos r hr; simp [fallbackAFold] at hr
  | cons pm rest ih =>
    intro vistos r hr
    unfold fallbackAFold at hr
    split at hr
    · obtain ⟨q, hq, hspec⟩ := ih vistos r hr
      exact ⟨q, List.mem_cons_of_mem _ hq, hspec⟩
    · split at hr
      · obtain ⟨q, hq, hspec⟩ := ih vistos r hr
        exact ⟨q, List.mem_cons_of_mem _ hq, hspec⟩
      · rename_i hexcl
        dsimp only at hr
        rcases List.mem_cons.mp hr with he | htl
        · subst he
          exact ⟨pm, List.mem_cons_self _ _, rfl, by simpa using hexcl⟩
        · obtain ⟨q, hq, hspec⟩ := ih (pm.doc :: vistos) r htl
          exact ⟨q, List.mem_cons_of_mem _ hq, hspec⟩

/-- Every entry produced by fallback B stems from a match of the
list-marker pattern whose seven-hundred-character follow-up window does
not contain the exclusion phrase. -/
theorem fallbackBFold_excl (flat : Str) : ∀ (ms : List PartyMatch) (vistos : List Str)
    (r : Responsavel), r ∈ (fallbackBFold flat vistos ms).2 →
      ∃ pm ∈ ms, r.numero_doc = pm.doc ∧
        temExclusao ((flat.drop pm.endIdx).take 700) = false := by
  intro ms
  induction ms with
  | nil => intro vistos r hr; simp [fallbackBFold] at hr
  | cons pm rest ih =>
    intro vistos r hr
    unfold fallbackBFold at hr
    split at hr
    · obtain ⟨q, hq, hspec⟩ := ih vistos r hr
      exact ⟨q, List.mem_cons_of_mem _ hq, hspec⟩
    · split at hr
      · obtain ⟨q, hq, hspec⟩ := ih vistos r hr
        exact ⟨q, List.mem_cons_of_mem _ hq, hspec⟩
      · rename_i hexcl
        dsimp only at hr
        rcases List.mem_cons.mp hr with he | htl
        · subst he
          exact ⟨pm, List.mem_cons_self _ _, rfl, by simpa using hexcl⟩
        · obtain ⟨q, hq, hspec⟩ := ih (pm.doc :: vistos) r htl
          exact ⟨q, List.mem_cons_of_mem _ hq, hspec⟩

/-- The claim of C1 as stated: a party match (of either pattern) whose
following seven-hundred-character window contains the exclusion phrase
never contributes its document number to the output, in any tier. -/
def claimC1At (texto : Str) : Prop :=
  ∀ pm ∈ finditerParty (collapseWs texto) ++ finditerPartyB (collapseWs texto),
    temExclusao (((collapseWs texto).drop pm.endIdx).take 700) = true →
      ∀ r ∈ (extrairDadosCertidao texto).responsaveis, r.numero_doc ≠ pm.doc

def cx1 : Str :=
  "CERTIFICO, ainda: FULANO DE TAL (CPF: 111.222.333-44) excluído do rol.".toList

/-- C1 as stated is false: the primary tier applies no exclusion filter,
so a party inside the CERTIFICO-ainda paragraph is listed even though the
exclusion phrase follows it immediately. -/
theorem C1_counterexample :
    (∃ pm ∈ finditerParty (collapseWs cx1),
        temExclusao (((collapseWs cx1).drop pm.endIdx).take 700) = true ∧
          ∃ r ∈ (extrairDadosCertidao cx1).responsaveis, r.numero_doc = pm.doc) ∧
      ¬ claimC1At cx1 := by unfold claimC1At; decide

/-- C1 (amended): the exclusion filter is applied only in the fallback
tiers.  When the primary tier produced no parties, every entry of the
output comes from a match of the general pattern (fallback A) or of the
list-marker pattern (fallback B) whose seven-hundred-character follow-up
window is free of the exclusion phrase. -/
theorem C1_fallback_exclusion (texto : Str)
    (h : tier1Resps texto = []) :
    ∀ r ∈ (extrairDadosCertidao texto).responsaveis,
      (∃ pm ∈ finditerParty (collapseWs texto),
          r.numero_doc = pm.doc ∧
            temExclusao (((collapseWs texto).drop pm.endIdx).take 700) = false) ∨
      (∃ pm ∈ finditerPartyB (collapseWs texto),
          r.numero_doc = pm.doc ∧
            temExclusao (((collapseWs texto).drop pm.endIdx).take 700) = false) := by
  intro r hr
  unfold extrairDadosCertidao at hr
  dsimp only at hr
  rw [show (tier1Fold (collapseWs texto) []
        (finditerParty (trechoResp (collapseWs texto)))).2 = tier1Resps texto from rfl,
    h] at hr
  simp only [List.isEmpty_nil, if_true] at hr
  split at hr
  · exact Or.inr (fallbackBFold_excl _ _ _ r hr)
  · exact Or.inl (fallbackAFold_excl _ _ _ r hr)

def cx2 : Str :=
  "FULANO DE TAL (CPF: 111.222.333-44) deve pagar. CERTIFICO, ainda os responsáveis acima citados.".toList

def cx2Resp : Responsavel :=
  ⟨"FULANO DE TAL".toList, "CPF".toList, "111.222.333-44".toList, none, false⟩

/-- Witness for C1: on a certificate whose CERTIFICO-ainda paragraph
names nobody, the party is taken by fallback A and its exclusion window
is clean. -/
theorem C1_witness :
    tier1Resps cx2 = [] ∧
      cx2Resp ∈ (extrairDadosCertidao cx2).responsaveis ∧
      ((∃ pm ∈ finditerParty (collapseWs cx2),
          cx2Resp.numero_doc = pm.doc ∧
            temExclusao (((collapseWs cx2).drop pm.endIdx).take 700) = false) ∨
       (∃ pm ∈ finditerPartyB (collapseWs cx2),
          cx2Resp.numero_doc = pm.doc ∧
            temExclusao (((collapseWs cx2).drop pm.endIdx).take 700) = false)) :=
  ⟨by decide, by decide, C1_fallback_exclusion cx2 (by decide) cx2Resp (by decide)⟩

/-- Spec-modelled monetary-value rule (spec.md, Monetary value): one of
the contextual labels restituir, valor final, valor do debito atualizado
followed by an amount whose R-dollar mark starts within eighty characters
after the label; the first such match in the text wins. -/
def specLabelAt (s : Str) : Option Nat :=
  if ciPrefix "restituir".toList s then some 9
  else if ciPrefix "valor final".toList s then some 11
  else if ciPrefix "valor do débito atualizado".toList s then some 26
  else none

def findValorWithin : Nat → Str → Option Str
  | 0, s => valorTail s
  | n + 1, s =>
    match valorTail s with
    | some g => some g
    | none =>
      match s with
      | [] => none
      | _ :: tl => findValorWithin n tl

def specValor (flat : Str) : Option Str :=
  searchStr
    (fun s =>
      match specLabelAt s with
      | some L => findValorWithin 80 (s.drop L)
      | none => none) flat

/-- The claim of C8 as stated: the extracted value is the first labeled
amount within eighty characters when one exists, else the last formatted
amount, else none. -/
def claimC8At (texto : Str) : Prop :=
  (extrairDadosCertidao texto).valor_atualizado =
    match specValor (collapseWs texto) with
    | some g => some ("R$ ".toList ++ g)
    | none =>
      match (findallCurrency (collapseWs texto)).getLast? with
      | some g => some ("R$ ".toList ++ g)
      | none => none

def cx8 : Str :=
  "Valor final do debito em analise global: R$ 1.111,11 e depois R$ 2.222,22".toList

/-- C8 as stated is false: for the valor-final label the code's window is
only twenty non-R characters, so a thirty-character gap defeats the
labeled branch and the last formatted amount is returned instead of the
first labeled one. -/
theorem C8_counterexample :
    specValor (collapseWs cx8) = some "1.111,11".toList ∧
      (extrairDadosCertidao cx8).valor_atualizado = some "R$ 2.222,22".toList ∧
      ¬ claimC8At cx8 := by unfold claimC8At; decide

/-- C8 (amended): the extracted value is the first match of the labeled
pattern (restituir with an eighty-character non-R window, or the valor
labels with a twenty-character non-R window) when one exists; otherwise
the last currency-formatted amount in the text; otherwise none.  No
failure mode other than none exists. -/
theorem C8_value_extraction (texto : Str) :
    (∀ g, valorPrimario (collapseWs texto) = some g →
        (extrairDadosCertidao texto).valor_atualizado = some ("R$ ".toList ++ g)) ∧
      (valorPrimario (collapseWs texto) = none →
        (∀ g, (findallCurrency (collapseWs texto)).getLast? = some g →
            (extrairDadosCertidao texto).valor_atualizado = some ("R$ ".toList ++ g)) ∧
          ((findallCurrency (collapseWs texto)).getLast? = none →
            (extrairDadosCertidao texto).valor_atualizado = none)) := by
  constructor
  · intro g hg
    unfold extrairDadosCertidao
    dsimp only
    unfold valorAtualizado
    rw [hg]
  · intro hnone
    constructor
    · intro g hg
      unfold extrairDadosCertidao
      dsimp only
      unfold valorAtualizado
      rw [hnone, hg]
    · intro hg
      unfold extrairDadosCertidao
      dsimp only
      unfold valorAtualizado
      rw [hnone, hg]

def w8a : Str := "devem restituir a quantia de R$ 1.234,56 hoje".toList

def w8b : Str := "multas de R$ 2,00 e R$ 3,00 aplicadas".toList

def w8c : Str := "nada consta".toList

/-- Witness for C8: a labeled amount, a fallback-only text taking the
last amount, and a text with no amount at all. -/
theorem C8_witness :
    (extrairDadosCertidao w8a).valor_atualizado =
        some ("R$ ".toList ++ "1.234,56".toList) ∧
      (extrairDadosCertidao w8b).valor_atualizado =
        some ("R$ ".toList ++ "3,00".toList) ∧
      (extrairDadosCertidao w8c).valor_atualizado = none :=
  ⟨(C8_value_extraction w8a).1 _ (by decide),
   ((C8_value_extraction w8b).2 (by decide)).1 _ (by decide),
   ((C8_value_extraction w8c).2 (by decide)).2 (by decide)⟩

end TCE
